import Mathlib

/-
Verification of the CtrlChecks inference gateway and workflow pipeline.

This file gives a shallow embedding of the core of the repository:
  * the workflow validation routine `ensure_complete_workflow_json`
    (src/AI_Agent/workflow_worker/main.py),
  * the worker pipeline `generate_workflow` and its helpers
    `call_ollama_chat` / `update_job_status` (same file),
  * the gateway client `OllamaClient` (`_make_request`, `_make_chat_request`,
    `health_check`; src/AI_Agent/ollama_backend/src/models/ollama_client.py),
  * the sticky-failover client `TextProcessor._call_ollama_chat`
    (src/AI_Agent/multimodal_backend/services/text_processor_ollama.py),
  * the gateway route table with its optional bearer-token dependency
    (src/AI_Agent/ollama_backend/src/api/endpoints.py),
and proves or refutes the specified properties of those components.

Python values flowing through these functions are JSON-shaped; we model them
with an inductive `Json` type.  Machine-level details that the properties do
not depend on (actual sockets, clocks, the SQL store) are abstracted into
explicit inputs: daemon interactions become oracle functions from the attempt
number (or requested endpoint/url) to an outcome, and the job record is
threaded through the pipeline explicitly.
-/

/-- Model of a Python JSON value (as produced by `json.loads`).  Numbers are
restricted to integers; the workflows manipulated by the repository only use
integer literals.  Objects are association lists in insertion order, matching
Python dict semantics for the operations used by the source. -/
inductive Json where
  | null : Json
  | bool (b : Bool) : Json
  | num (n : Int) : Json
  | str (s : String) : Json
  | arr (elems : List Json) : Json
  | obj (kvs : List (String × Json)) : Json

/-- Python truthiness (`bool(x)`) for JSON-shaped values: None, False, 0,
empty string, empty list and empty dict are falsy. -/
def pyTruthy : Json → Bool
  | .null => false
  | .bool b => b
  | .num n => n != 0
  | .str s => s != ""
  | .arr es => !es.isEmpty
  | .obj kvs => !kvs.isEmpty

/-- Test for `isinstance(x, dict)`. -/
def Json.isObj : Json → Bool
  | .obj _ => true
  | _ => false

/-- Test for `isinstance(x, list)`. -/
def Json.isArr : Json → Bool
  | .arr _ => true
  | _ => false

/-- Test for `isinstance(x, str)`. -/
def Json.isStr : Json → Bool
  | .str _ => true
  | _ => false

/-- Dictionary lookup, first binding wins (Python dicts have unique keys, so
this matches `d[k]` / `d.get(k)` presence semantics). -/
def jget (kvs : List (String × Json)) (k : String) : Option Json :=
  match kvs with
  | [] => none
  | (k0, v0) :: t => if k0 == k then some v0 else jget t k

/-- Model of the Python assignment `d[k] = v`: replace the binding in place if
the key exists, otherwise append it (Python dicts preserve insertion order and
keep the position of an updated key). -/
def setKey : List (String × Json) → String → Json → List (String × Json)
  | [], k, v => [(k, v)]
  | (k', v') :: t, k, v => if k' == k then (k, v) :: t else (k', v') :: setKey t k v

/-- Model of the pattern `if k not in d: d[k] = v` used throughout the
validation code. -/
def ensureKey (kvs : List (String × Json)) (k : String) (v : Json) : List (String × Json) :=
  if (jget kvs k).isNone then setKey kvs k v else kvs

/-- Default node substituted for a malformed (non-dict) nodes entry at index
`i`, from `ensure_complete_workflow_json`:
`\x7b"id": f"node_\x7bi+1\x7d", "type": "noop", "position": \x7b"x": 250 + i*300, "y": 100\x7d, "config": \x7b\x7d\x7d`. -/
def defaultNode (i : Nat) : Json :=
  .obj [("id", .str ("node_" ++ toString (i + 1))),
        ("type", .str "noop"),
        ("position", .obj [("x", .num (250 + (i : Int) * 300)), ("y", .num 100)]),
        ("config", .obj [])]

/-- Body of the `for i, node in enumerate(workflow["nodes"])` repair loop of
`ensure_complete_workflow_json`: a non-dict entry is replaced wholesale by
`defaultNode i`; a dict entry has each of `id`, `type`, `position`, `config`
defaulted if missing. -/
def fixNode (i : Nat) (n : Json) : Json :=
  match n with
  | .obj kvs =>
    let kvs := ensureKey kvs "id" (.str ("node_" ++ toString (i + 1)))
    let kvs := ensureKey kvs "type" (.str "noop")
    let kvs := ensureKey kvs "position"
      (.obj [("x", .num (250 + (i : Int) * 300)), ("y", .num 100)])
    let kvs := ensureKey kvs "config" (.obj [])
    .obj kvs
  | _ => defaultNode i

/-- The nodes loop itself, carrying the running index. -/
def fixNodes : List Json → Nat → List Json
  | [], _ => []
  | n :: t, i => fixNode i n :: fixNodes t (i + 1)

/-- Body of the `for i, edge in enumerate(workflow["edges"])` loop of
`ensure_complete_workflow_json`: a non-dict entry raises
`ValueError(f"Invalid edge at index \x7bi\x7d: must be an object")`; a missing `id`
is defaulted to `edge_\x7bi+1\x7d`; a missing `source` or `target` raises
`ValueError(f"Invalid edge at index \x7bi\x7d: missing source or target")`. -/
def fixEdges : List Json → Nat → Except String (List Json)
  | [], _ => .ok []
  | e :: t, i =>
    match e with
    | .obj kvs =>
      let kvs := ensureKey kvs "id" (.str ("edge_" ++ toString (i + 1)))
      if (jget kvs "source").isNone || (jget kvs "target").isNone then
        .error ("Invalid edge at index " ++ toString i ++ ": missing source or target")
      else
        match fixEdges t (i + 1) with
        | .ok t' => .ok (.obj kvs :: t')
        | .error m => .error m
    | _ => .error ("Invalid edge at index " ++ toString i ++ ": must be an object")

/-- One list-field normalization step of `ensure_complete_workflow_json`
(lines 246-249): `if k not in workflow or not isinstance(workflow[k], list):
workflow[k] = []`. -/
def fixListField (kvs : List (String × Json)) (k : String) : List (String × Json) :=
  if (match jget kvs k with | some (.arr _) => false | _ => true)
  then setKey kvs k (.arr []) else kvs

/-- One string-field normalization step of `ensure_complete_workflow_json`
(lines 250-253): `if k not in workflow or not isinstance(workflow[k], str):
workflow[k] = workflow.get(k) or dflt` (note: an existing truthy non-string
value is kept by the `or`). -/
def fixStrField (kvs : List (String × Json)) (k : String) (dflt : String) :
    List (String × Json) :=
  if (match jget kvs k with | some (.str _) => false | _ => true)
  then setKey kvs k
    (let v := (jget kvs k).getD .null
     if pyTruthy v then v else .str dflt)
  else kvs

/-- Top-level field normalization of `ensure_complete_workflow_json`
(lines 246-253), applied in source order: nodes, edges, name, summary. -/
def fixTopFields (kvs0 : List (String × Json)) : List (String × Json) :=
  fixStrField
    (fixStrField (fixListField (fixListField kvs0 "nodes") "edges") "name" "Generated Workflow")
    "summary" "AI-generated workflow"

/-- Shallow embedding of `ensure_complete_workflow_json` (workflow_worker/main.py,
lines 240-283).  A falsy or non-dict workflow is rejected; the top-level
fields are normalized; then the node and edge repair loops run.  The final
`json.dumps`/`json.loads` round trip always succeeds on values of type `Json`
and is omitted. -/
def ensureCompleteWorkflowJson (workflow : Json) : Except String Json :=
  match workflow with
  | .obj kvs0 =>
    if kvs0.isEmpty then .error "Invalid workflow: must be an object" else
    let kvs4 := fixTopFields kvs0
    let ns := match jget kvs4 "nodes" with | some (.arr l) => l | _ => []
    let kvs5 := setKey kvs4 "nodes" (.arr (fixNodes ns 0))
    let es := match jget kvs5 "edges" with | some (.arr l) => l | _ => []
    match fixEdges es 0 with
    | .ok es' => .ok (.obj (setKey kvs5 "edges" (.arr es')))
    | .error m => .error m
  | _ => .error "Invalid workflow: must be an object"

/-- A node the validator guarantees: a dict carrying `id`, `type`, `position`
and `config`. -/
def nodeComplete : Json → Bool
  | .obj kvs =>
    (jget kvs "id").isSome && (jget kvs "type").isSome &&
    (jget kvs "position").isSome && (jget kvs "config").isSome
  | _ => false

/-- An edge the validator guarantees: a dict carrying `id`, `source` and
`target`. -/
def edgeComplete : Json → Bool
  | .obj kvs =>
    (jget kvs "id").isSome && (jget kvs "source").isSome && (jget kvs "target").isSome
  | _ => false

/-- Structural validity of a workflow value: a non-empty dict whose `nodes`
and `edges` are lists of complete nodes/edges and which carries `name` and
`summary` keys. -/
def wfStructValid (w : Json) : Bool :=
  match w with
  | .obj kvs =>
    !kvs.isEmpty &&
    (match jget kvs "nodes" with | some (.arr ns) => ns.all nodeComplete | _ => false) &&
    (match jget kvs "edges" with | some (.arr es) => es.all edgeComplete | _ => false) &&
    (jget kvs "name").isSome && (jget kvs "summary").isSome
  | _ => false

/-- An edge entry that is a dict missing `source` or `target` (the condition
whose first occurrence the edge loop reports). -/
def edgeMissingST : Json → Bool
  | .obj kvs => (jget kvs "source").isNone || (jget kvs "target").isNone
  | _ => false

/-- Node identifiers of a workflow value (string `id` fields of its dict
nodes). -/
def workflowNodeIds (w : Json) : List String :=
  match w with
  | .obj kvs =>
    match jget kvs "nodes" with
    | some (.arr ns) =>
      ns.filterMap fun n =>
        match n with
        | .obj nk => match jget nk "id" with | some (.str s) => some s | _ => none
        | _ => none
    | _ => []
  | _ => []

/-- Referential integrity of edges as the specification states it: every
edge's `source` and `target` is the id of an existing node.  This predicate
is the spec's invariant, stated for comparison with what the code actually
checks. -/
def edgeRefsValid (w : Json) : Bool :=
  match w with
  | .obj kvs =>
    match jget kvs "edges" with
    | some (.arr es) =>
      es.all fun e =>
        match e with
        | .obj ek =>
          (match jget ek "source" with
           | some (.str s) => (workflowNodeIds w).contains s
           | _ => false) &&
          (match jget ek "target" with
           | some (.str t) => (workflowNodeIds w).contains t
           | _ => false)
        | _ => false
    | _ => true
  | _ => true

/-! ## Python string primitives used by the source -/

/-- Substring test on character lists: some drop of `s` starts with `pat`. -/
def containsSub (s pat : List Char) : Bool :=
  (List.range (s.length + 1)).any fun i => pat.isPrefixOf (s.drop i)

/-- Model of Python's `pat in s` on strings. -/
def pyContains (s pat : String) : Bool :=
  containsSub s.data pat.data

/-- Worker for `pySplit`: scan left to right, cutting at each non-overlapping
occurrence of `sep`.  The accumulator holds the current segment reversed; the
fuel is an upper bound on the number of characters left to scan (the zero-fuel
branch is unreachable from `pySplit`, which supplies `s.length`). -/
def splitGo (sep : List Char) : Nat → List Char → List Char → List (List Char)
  | _, [], acc => [acc.reverse]
  | 0, s, acc => [acc.reverse ++ s]
  | fuel + 1, c :: rest, acc =>
    if sep.isPrefixOf (c :: rest) then
      acc.reverse :: splitGo sep fuel ((c :: rest).drop sep.length) []
    else
      splitGo sep fuel rest (c :: acc)

/-- Model of Python's `s.split(sep)` for a non-empty separator. -/
def pySplit (s sep : String) : List String :=
  (splitGo sep.data s.data.length s.data []).map fun l => String.mk l

/-- Characters stripped by Python's `str.strip()` with no argument. -/
def stripChars (l : List Char) : List Char :=
  ((l.dropWhile Char.isWhitespace).reverse.dropWhile Char.isWhitespace).reverse

/-- Model of Python's `s.strip()`. -/
def pyStrip (s : String) : String :=
  String.mk (stripChars s.data)

/-- Model of Python's `s[:n]` slicing from the start. -/
def pyTake (n : Nat) (s : String) : String :=
  String.mk (s.data.take n)

/-- Model of Python's `s.find(c)` for a single character, with `None` in place
of `-1`. -/
def pyFindChar (s : String) (c : Char) : Option Nat :=
  s.data.findIdx? (· == c)

/-- Model of Python's `s.rfind(c)` for a single character. -/
def pyRFindChar (s : String) (c : Char) : Option Nat :=
  match s.data.reverse.findIdx? (· == c) with
  | some i => some (s.data.length - 1 - i)
  | none => none

/-- Model of Python's slice `s[a:b]`. -/
def pySlice (s : String) (a b : Nat) : String :=
  String.mk ((s.data.drop a).take (b - a))

/-- Backtick character (0x60), written by code point. -/
def backtickChar : Char := Char.ofNat 96

/-- Opening curly brace character (0x7b). -/
def openBraceChar : Char := Char.ofNat 123

/-- Closing curly brace character (0x7d). -/
def closeBraceChar : Char := Char.ofNat 125

/-! ## A JSON parser modelling `json.loads`

The parser accepts the JSON fragment the repository exchanges with the model
daemon: null/true/false, integers (optionally negative), double-quoted strings
with the common escapes, arrays and objects.  `json.loads` additionally parses
floats and rejects leading zeros; none of the workflows or claims exercise
those cases.  Failure is `none`, standing for `json.JSONDecodeError`. -/

/-- Leading-whitespace skip. -/
def skipWs (l : List Char) : List Char :=
  l.dropWhile Char.isWhitespace

/-- String-escape decoding for the common JSON escapes. -/
def escTable : List (Char × Char) :=
  [('"', '"'), ('\\', '\\'), ('/', '/'), ('n', '\n'), ('t', '\t'), ('r', '\r')]

def unescapeChar (c : Char) : Option Char :=
  escTable.lookup c

/-- Body of a JSON string after the opening quote; returns the decoded
characters and the remainder after the closing quote. -/
def parseStrBody : List Char → List Char → Option (List Char × List Char)
  | [], _ => none
  | '"' :: rest, acc => some (acc.reverse, rest)
  | '\\' :: c :: rest, acc =>
    match unescapeChar c with
    | some u => parseStrBody rest (u :: acc)
    | none => none
  | '\\' :: [], _ => none
  | c :: rest, acc => parseStrBody rest (c :: acc)

/-- Digit run to a natural number. -/
def digitsToNat (ds : List Char) : Nat :=
  ds.foldl (fun a c => a * 10 + (c.toNat - 48)) 0

mutual

/-- Parse one JSON value; fuel bounds the recursion depth and is unreachable
as zero when instantiated from `jsonParse`. -/
def parseJsonVal : Nat → List Char → Option (Json × List Char)
  | 0, _ => none
  | fuel + 1, cs =>
    match skipWs cs with
    | [] => none
    | c :: rest =>
      if c == '"' then
        match parseStrBody rest [] with
        | some (l, rest') => some (.str (String.mk l), rest')
        | none => none
      else if c == openBraceChar then
        match skipWs rest with
        | d :: rest' =>
          if d == closeBraceChar then some (.obj [], rest')
          else
            match parseObjRest fuel (d :: rest') with
            | some (kvs, rest'') => some (.obj kvs, rest'')
            | none => none
        | [] => none
      else if c == '[' then
        match skipWs rest with
        | ']' :: rest' => some (.arr [], rest')
        | l => match parseArrRest fuel l with
          | some (vs, rest'') => some (.arr vs, rest'')
          | none => none
      else if c == '-' || c.isDigit then
        let p := if c == '-' then (true, rest) else (false, c :: rest)
        match List.span Char.isDigit p.2 with
        | ([], _) => none
        | (ds, rest') =>
          some (.num (if p.1 then -(digitsToNat ds : Int) else (digitsToNat ds : Int)), rest')
      else if ['t', 'r', 'u', 'e'].isPrefixOf (c :: rest) then
        some (.bool true, (c :: rest).drop 4)
      else if ['f', 'a', 'l', 's', 'e'].isPrefixOf (c :: rest) then
        some (.bool false, (c :: rest).drop 5)
      else if ['n', 'u', 'l', 'l'].isPrefixOf (c :: rest) then
        some (.null, (c :: rest).drop 4)
      else none

/-- Parse the elements of a non-empty array body, ending at the bracket. -/
def parseArrRest : Nat → List Char → Option (List Json × List Char)
  | 0, _ => none
  | fuel + 1, cs =>
    match parseJsonVal fuel cs with
    | some (v, rest1) =>
      match skipWs rest1 with
      | ',' :: rest2 =>
        match parseArrRest fuel rest2 with
        | some (vs, rest3) => some (v :: vs, rest3)
        | none => none
      | ']' :: rest2 => some ([v], rest2)
      | _ => none
    | none => none

/-- Parse the members of a non-empty object body, ending at the brace. -/
def parseObjRest : Nat → List Char → Option (List (String × Json) × List Char)
  | 0, _ => none
  | fuel + 1, cs =>
    match skipWs cs with
    | c :: rest =>
      if c == '"' then
        match parseStrBody rest [] with
        | some (kl, rest1) =>
          match skipWs rest1 with
          | ':' :: rest2 =>
            match parseJsonVal fuel rest2 with
            | some (v, rest3) =>
              match skipWs rest3 with
              | ',' :: rest4 =>
                match parseObjRest fuel rest4 with
                | some (kvs, rest5) => some ((String.mk kl, v) :: kvs, rest5)
                | none => none
              | d :: rest4 =>
                if d == closeBraceChar then some ([(String.mk kl, v)], rest4) else none
              | [] => none
            | none => none
          | _ => none
        | none => none
      else none
    | [] => none

end

/-- Model of `json.loads`: parse one value and require only whitespace after
it.  The fuel `2 * length + 2` dominates the recursion depth, every recursive
call consuming at least one input character. -/
def jsonParse (s : String) : Option Json :=
  match parseJsonVal (2 * s.data.length + 2) s.data with
  | some (v, rest) => if (skipWs rest).isEmpty then some v else none
  | none => none

/-! ## The worker pipeline (workflow_worker/main.py)

The daemon is abstracted as an oracle from the attempt number to the outcome
of one HTTP interaction; the job row in the store is threaded explicitly. -/

/-- Markdown fence stripping as written twice in `generate_workflow`
(lines 334-337 and 383-386):
`content.split("```json")[1].split("```")[0].strip()` when the content holds
a ```json fence, else the same with the plain ``` fence, else unchanged. -/
def stripFences (content : String) : String :=
  if pyContains content "```json" then
    pyStrip ((pySplit ((pySplit content "```json").getD 1 "") "```").getD 0 "")
  else if pyContains content "```" then
    pyStrip ((pySplit ((pySplit content "```").getD 1 "") "```").getD 0 "")
  else content

/-- Stand-in for the text of a `json.JSONDecodeError`; the Python message
varies with the input but is always a non-empty description. -/
def jsonDecodeErrMsg : String := "Expecting value: line 1 column 1 (char 0)"

/-- Generation-phase extraction (`generate_workflow` lines 381-398): strip
fences, `json.loads`; on failure slice from the first opening brace to the
last closing brace and re-parse; raise
`ValueError(f"Could not extract valid JSON from response: ...")` when no such
slice exists.  A failing salvage re-parse propagates its own decode error. -/
def extractWorkflow (generationContent : String) : Except String Json :=
  let c := stripFences generationContent
  match jsonParse c with
  | some w => .ok w
  | none =>
    match pyFindChar c openBraceChar, pyRFindChar c closeBraceChar with
    | some s, some e =>
      if s < e then
        match jsonParse (pySlice c s (e + 1)) with
        | some w => .ok w
        | none => .error jsonDecodeErrMsg
      else .error ("Could not extract valid JSON from response: " ++ jsonDecodeErrMsg)
    | _, _ => .error ("Could not extract valid JSON from response: " ++ jsonDecodeErrMsg)

/-- Fallback summary substituted when the analyze response cannot be parsed
(`generate_workflow` line 340). -/
def analyzeFallback : Json :=
  .obj [("summary", .str "Analysis completed"), ("requirements", .arr [])]

/-- Analyze-phase extraction (`generate_workflow` lines 332-340): fence strip
plus `json.loads` under a bare `except`, so every failure (including a
non-string content raising `TypeError` inside the `in` test) falls back. -/
def analysisResult (content : Json) : Json :=
  match content with
  | .str s =>
    match jsonParse (stripFences s) with
    | some j => j
    | none => analyzeFallback
  | _ => analyzeFallback

/-- The content expression applied to both phase responses (lines 330, 379):
`resp.get("message", \x7b\x7d).get("content", "") or resp.get("response", "")`.
A non-dict response, or a non-dict `message` value, raises `AttributeError`
at this point (outside every try/except of the pipeline). -/
def getMessageContent (body : Json) : Except String Json :=
  match body with
  | .obj kvs =>
    match (jget kvs "message").getD (.obj []) with
    | .obj mkvs =>
      let c := (jget mkvs "content").getD (.str "")
      let r := (jget kvs "response").getD (.str "")
      .ok (if pyTruthy c then c else r)
    | _ => .error "AttributeError: object has no attribute get"
  | _ => .error "AttributeError: object has no attribute get"

/-- The worker's `MAX_RETRIES` (env default "3"). -/
def workerMaxRetries : Nat := 3

/-- Outcome of one non-streaming `POST /api/chat` attempt by the worker:
a 200 response with a JSON body, a non-200 status (the code raises
`Exception(f"Ollama error \x7bstatus\x7d: \x7btext[:200]\x7d")`), or any other exception
(timeout, connection error, ...) whose `str` is `msg` and may be empty. -/
inductive ChatAttempt where
  | ok (body : Json)
  | httpErr (code : Nat) (text : String)
  | exc (msg : String)

/-- Message of the exception raised for a failing attempt. -/
def chatAttemptMsg : ChatAttempt → String
  | .ok _ => ""
  | .httpErr code text => "Ollama error " ++ toString code ++ ": " ++ pyTake 200 text
  | .exc m => m

/-- Retry loop of the worker's `call_ollama_chat` (lines 192-238):
`while attempt < MAX_RETRIES` retries every exception with backoff, and on
the final attempt re-raises the last exception itself (the bare `raise` at
line 236); line 238 is unreachable.  `fuel` is the number of attempts still
allowed; the zero-fuel equation is unreachable from the wrapper. -/
def callOllamaChatGo (oracle : Nat → ChatAttempt) : Nat → Nat → Except String Json
  | idx, fuel + 1 =>
    match oracle idx with
    | .ok body => .ok body
    | a => if fuel == 0 then .error (chatAttemptMsg a) else callOllamaChatGo oracle (idx + 1) fuel
  | _, 0 => .error "Ollama call failed after 3 attempts"

/-- Non-streaming `call_ollama_chat` against an attempt oracle. -/
def callOllamaChatW (oracle : Nat → ChatAttempt) : Except String Json :=
  callOllamaChatGo oracle 0 workerMaxRetries

/-- Outcome of one streaming attempt: the daemon streamed chunks assembling
to `content` with a 200 status, or a non-200 status, or another exception. -/
inductive StreamAttempt where
  | ok (content : String)
  | httpErr (code : Nat) (text : String)
  | exc (msg : String)

/-- Message of the exception raised for a failing streaming attempt. -/
def streamAttemptMsg : StreamAttempt → String
  | .ok _ => ""
  | .httpErr code text => "Ollama error " ++ toString code ++ ": " ++ pyTake 200 text
  | .exc m => m

/-- Streaming branch of `call_ollama_chat`: a successful stream returns
`\x7b"message": \x7b"content": full\x7d, "response": full\x7d` (line 216); failures are
retried exactly like the non-streaming branch. -/
def callOllamaChatStreamGo (oracle : Nat → StreamAttempt) : Nat → Nat → Except String Json
  | idx, fuel + 1 =>
    match oracle idx with
    | .ok content =>
      .ok (.obj [("message", .obj [("content", .str content)]), ("response", .str content)])
    | a =>
      if fuel == 0 then .error (streamAttemptMsg a)
      else callOllamaChatStreamGo oracle (idx + 1) fuel
  | _, 0 => .error "Ollama call failed after 3 attempts"

/-- Streaming `call_ollama_chat` against an attempt oracle. -/
def callOllamaChatStreamW (oracle : Nat → StreamAttempt) : Except String Json :=
  callOllamaChatStreamGo oracle 0 workerMaxRetries

/-- The fields of the job row touched by the worker. -/
structure JobRecord where
  status : String
  progress : Option Nat
  phase : Option String
  error_message : Option String
  workflow_result : Option Json

/-- Shallow embedding of `update_job_status` (lines 110-144): `status` is
always written; `progress` when not None (including 0); `phase`,
`error_message` and `workflow_result` only when truthy, so an empty error
string or an empty workflow dict is silently dropped. -/
def updateJobStatus (r : JobRecord) (status : String) (progress : Option Nat)
    (phase : Option String) (errorMessage : Option String)
    (workflowResult : Option Json) : JobRecord :=
  { status := status
    progress := match progress with | some p => some p | none => r.progress
    phase := match phase with
      | some ph => if ph != "" then some ph else r.phase
      | none => r.phase
    error_message := match errorMessage with
      | some m => if m != "" then some m else r.error_message
      | none => r.error_message
    workflow_result := match workflowResult with
      | some w => if pyTruthy w then some w else r.workflow_result
      | none => r.workflow_result }

/-- Shallow embedding of `add_progress_log` (lines 146-169) restricted to the
job fields it writes besides the log list: `progress_percentage` becomes
`progress or 0` and `current_phase` is overwritten unconditionally. -/
def addProgressLog (r : JobRecord) (progress : Option Nat) (phase : Option String) : JobRecord :=
  { r with progress := some (progress.getD 0), phase := phase }

/-- Failure update at the tail of `generate_workflow` (lines 426-435). -/
def failUpdate (r : JobRecord) (e : String) : JobRecord :=
  updateJobStatus r "failed" none none (some e) none

/-- Shallow embedding of `generate_workflow` (lines 289-435) over the results
of its two daemon calls.  The returned `Nat` counts how many times the
generation-phase `call_ollama_chat` was issued (0 before the analyze phase
concluded, 1 after), observing that a generation parse failure is not
retried.  The analysis result only feeds the generation prompt, which the
oracle abstraction absorbs. -/
def generateWorkflow (r0 : JobRecord) (aRes : Except String Json)
    (gRes : Except String Json) : JobRecord × Nat :=
  let r1 := updateJobStatus r0 "processing" (some 0) (some "analyze") none none
  let r2 := addProgressLog r1 (some 0) (some "analyze")
  let r3 := addProgressLog r2 (some 10) (some "analyze")
  match aRes with
  | .error e => (failUpdate r3 e, 0)
  | .ok aBody =>
    match getMessageContent aBody with
    | .error e => (failUpdate r3 e, 0)
    | .ok aContent =>
      let _analysis := analysisResult aContent
      let r4 := addProgressLog r3 (some 30) (some "workflow_generation")
      let r5 := addProgressLog r4 (some 40) (some "workflow_generation")
      match gRes with
      | .error e => (failUpdate r5 e, 1)
      | .ok gBody =>
        match getMessageContent gBody with
        | .error e => (failUpdate r5 e, 1)
        | .ok gContent =>
          match gContent with
          | .str gs =>
            match extractWorkflow gs with
            | .error e => (failUpdate r5 e, 1)
            | .ok wf0 =>
              match ensureCompleteWorkflowJson wf0 with
              | .error e => (failUpdate r5 e, 1)
              | .ok wf =>
                let r6 := addProgressLog r5 (some 90) (some "validation")
                let r7 := addProgressLog r6 (some 95) (some "validation")
                (updateJobStatus r7 "completed" (some 100) (some "validation") none (some wf), 1)
          | _ => (failUpdate r5 "TypeError: argument of type int is not iterable", 1)

/-- End-to-end pipeline against the two daemon oracles. -/
def generateWorkflowRun (r0 : JobRecord) (aOracle : Nat → ChatAttempt)
    (gOracle : Nat → StreamAttempt) : JobRecord × Nat :=
  generateWorkflow r0 (callOllamaChatW aOracle) (callOllamaChatStreamW gOracle)

/-- A job as created by the requester: pending, no error, no result. -/
def freshJob : JobRecord :=
  { status := "pending", progress := some 0, phase := none,
    error_message := none, workflow_result := none }

/-! ## The gateway client (ollama_backend/src/models/ollama_client.py) -/

/-- The `OllamaConfig` dataclass with its defaults. -/
structure OllamaConfig where
  base_url : String := "https://ollama-api.ctrlchecks.ai"
  timeout : Nat := 300
  max_retries : Nat := 3

/-- Outcome of one HTTP attempt of `_make_request`/`_make_chat_request`: a
200 response with a JSON body, a timeout (`httpx.TimeoutException`), a
non-2xx status (`raise_for_status` raises), or a connection-level error. -/
inductive RequestAttempt where
  | ok (body : Json)
  | timeout
  | httpErr (code : Nat) (text : String)
  | connErr (msg : String)

/-- Error surfaced by `_make_request`/`_make_chat_request`. -/
inductive RequestError where
  | timeout
  | status (code : Nat) (text : String)
  | conn (msg : String)

/-- Retry recursion of `_make_request` (lines 82-95): only
`httpx.TimeoutException` is retried, while `retry_count < max_retries`; every
other exception is re-raised immediately.  `retriesLeft` is
`max_retries - retry_count` (so the guard `retry_count < max_retries` is
`retriesLeft > 0`); the second component counts HTTP attempts performed. -/
def makeRequestGo (oracle : Nat → RequestAttempt) :
    Nat → Nat → Except RequestError Json × Nat
  | retriesLeft, idx =>
    match oracle idx with
    | .ok body => (.ok body, 1)
    | .timeout =>
      match retriesLeft with
      | r + 1 =>
        let p := makeRequestGo oracle r (idx + 1)
        (p.1, p.2 + 1)
      | 0 => (.error .timeout, 1)
    | .httpErr code text => (.error (.status code text), 1)
    | .connErr m => (.error (.conn m), 1)

/-- The `generate` path `_make_request` with a fresh `retry_count = 0`. -/
def makeRequest (cfg : OllamaConfig) (oracle : Nat → RequestAttempt) :
    Except RequestError Json × Nat :=
  makeRequestGo oracle cfg.max_retries 0

/-- Retry recursion of `_make_chat_request` (lines 138-183), which duplicates
the `_make_request` retry structure verbatim around the chat endpoint (the
payload/endpoint translation does not affect the retry behaviour). -/
def makeChatRequestGo (oracle : Nat → RequestAttempt) :
    Nat → Nat → Except RequestError Json × Nat
  | retriesLeft, idx =>
    match oracle idx with
    | .ok body => (.ok body, 1)
    | .timeout =>
      match retriesLeft with
      | r + 1 =>
        let p := makeChatRequestGo oracle r (idx + 1)
        (p.1, p.2 + 1)
      | 0 => (.error .timeout, 1)
    | .httpErr code text => (.error (.status code text), 1)
    | .connErr m => (.error (.conn m), 1)

/-- The `chat` path `_make_chat_request` with a fresh `retry_count = 0`. -/
def makeChatRequest (cfg : OllamaConfig) (oracle : Nat → RequestAttempt) :
    Except RequestError Json × Nat :=
  makeChatRequestGo oracle cfg.max_retries 0

/-- The mutable dialect state of an `OllamaClient`. -/
structure OClient where
  base_url : String
  is_openai_compatible : Bool
  mode_detected : Bool

/-- Model of Python's `s.startswith(pat)`. -/
def pyStartsWith (s pat : String) : Bool :=
  pat.data.isPrefixOf s.data

/-- Model of Python's `s.lower()` (ASCII-adequate for the URLs involved). -/
def pyLower (s : String) : String :=
  String.mk (s.data.map Char.toLower)

/-- The native-tunnel test used in `__init__` (lines 33-36) and
`health_check` (lines 255-258). -/
def isNativeTunnel (u : String) : Bool :=
  pyContains u "ollama-api.ctrlchecks.ai" || pyStartsWith u "https://ollama-api"

/-- Dialect initialisation in `OllamaClient.__init__` (lines 30-48). -/
def initClient (u : String) : OClient :=
  let tun := isNativeTunnel u
  let oc := !tun &&
    (pyContains u "/v1/" || (pyContains u "api.openai.com" || pyContains (pyLower u) "gateway"))
  { base_url := u
    is_openai_compatible := if tun then false else oc
    mode_detected := false }

/-- Outcome of one `GET` probe in `health_check`: an HTTP status with body
text, or one of the exception classes the handler distinguishes
(`httpx.ConnectError`, `httpx.TimeoutException`, anything else). -/
inductive ProbeOutcome where
  | status (code : Nat) (text : String)
  | connExc (msg : String)
  | timeoutExc (msg : String)
  | otherExc (msg : String)

/-- Result of `health_check` together with the successor client state and the
ordered list of endpoints actually probed. -/
structure HCResult where
  healthy : Bool
  msg : String
  state : OClient
  probes : List String

/-- The unconditional status-code message chain of `health_check`
(lines 305-312), reached when the 404/403 fallback clause does not fire. -/
def hcStatusMsg (base endp : String) (code : Nat) (text : String) : String :=
  if code == 530 then
    "Cloudflare tunnel error (530): " ++ base ++
      " is not accessible. Check if Cloudflare tunnel is running."
  else if code == 403 then
    "Forbidden (403): Access denied to " ++ base ++ endp ++
      ". Check Cloudflare Access settings or tunnel configuration."
  else if code == 404 then
    "Endpoint not found (404): " ++ base ++ endp ++
      ". Verify the remote Ollama endpoint is configured correctly."
  else "HTTP " ++ toString code ++ ": " ++ pyTake 200 text

/-- Shallow embedding of `health_check` (lines 246-319).  Endpoint selection:
a native-tunnel base is pinned to `/api/tags` with no fallback (and the
dialect flag forced native before probing); otherwise a base containing
`/v1/` or already flagged OpenAI-compatible probes `/v1/models` with fallback
`/api/tags`; every other base probes `/api/tags` with fallback `/v1/models`.
A 200 fixes the dialect from the endpoint that answered and sets
`_mode_detected`; a 404/403 on the first probe tries the fallback only when
the mode was never detected. -/
def healthCheck (c : OClient) (probe : String → ProbeOutcome) : HCResult :=
  let tun := isNativeTunnel c.base_url
  let sel : String × Option String × OClient :=
    if tun then ("/api/tags", none, { c with is_openai_compatible := false })
    else if pyContains c.base_url "/v1/" || c.is_openai_compatible then
      ("/v1/models", some "/api/tags", c)
    else ("/api/tags", some "/v1/models", c)
  let endp := sel.1
  let c0 := sel.2.2
  match probe endp with
  | .status code text =>
    if code == 200 then
      { healthy := true, msg := ""
        state := { c0 with is_openai_compatible := endp == "/v1/models", mode_detected := true }
        probes := [endp] }
    else
      match sel.2.1 with
      | some fb =>
        if (code == 404 || code == 403) && !c.mode_detected then
          match probe fb with
          | .status fcode _ =>
            if fcode == 200 then
              { healthy := true, msg := ""
                state :=
                  { c0 with is_openai_compatible := fb == "/v1/models", mode_detected := true }
                probes := [endp, fb] }
            else
              { healthy := false
                msg := "Both endpoints failed: " ++ endp ++ " (" ++ toString code ++ "), " ++
                  fb ++ " (" ++ toString fcode ++ ")"
                state := c0, probes := [endp, fb] }
          | .connExc m =>
            { healthy := false
              msg := "Primary endpoint " ++ endp ++ " returned " ++ toString code ++
                ", fallback " ++ fb ++ " failed: " ++ m
              state := c0, probes := [endp, fb] }
          | .timeoutExc m =>
            { healthy := false
              msg := "Primary endpoint " ++ endp ++ " returned " ++ toString code ++
                ", fallback " ++ fb ++ " failed: " ++ m
              state := c0, probes := [endp, fb] }
          | .otherExc m =>
            { healthy := false
              msg := "Primary endpoint " ++ endp ++ " returned " ++ toString code ++
                ", fallback " ++ fb ++ " failed: " ++ m
              state := c0, probes := [endp, fb] }
        else
          { healthy := false, msg := hcStatusMsg c.base_url endp code text
            state := c0, probes := [endp] }
      | none =>
        { healthy := false, msg := hcStatusMsg c.base_url endp code text
          state := c0, probes := [endp] }
  | .connExc _ =>
    { healthy := false
      msg := "Connection error: Cannot connect to " ++ c.base_url ++
        ". Check if Cloudflare tunnel is running and the remote endpoint is accessible."
      state := c0, probes := [endp] }
  | .timeoutExc _ =>
    { healthy := false
      msg := "Timeout: " ++ c.base_url ++
        " did not respond within 10 seconds. The remote endpoint may be slow or unreachable."
      state := c0, probes := [endp] }
  | .otherExc m =>
    { healthy := false
      msg := "Health check failed: " ++ (if m != "" then m else "Exception")
      state := c0, probes := [endp] }



/-! ## The sticky-failover text processor
(multimodal_backend/services/text_processor_ollama.py) -/

/-- The mutable state of a `TextProcessor` (lines 31-41). -/
structure TPState where
  base_url : String
  fallback_url : String
  use_api : Bool
  api_checked : Bool
  fallback_used : Bool

/-- A `TextProcessor` as constructed with the default environment:
the remote tunnel as primary and localhost as fallback. -/
def initTextProcessor : TPState :=
  { base_url := "https://ollama-api.ctrlchecks.ai"
    fallback_url := "http://localhost:11434"
    use_api := false, api_checked := false, fallback_used := false }

/-- Shallow embedding of `_check_api_available` (lines 43-73): every return
path sets `_api_checked` and leaves `use_api` False (no path ever enables the
FastAPI backend). -/
def checkApiAvailable (st : TPState) : TPState :=
  { st with api_checked := true, use_api := false }

/-- Outcome of one `POST \x7bbase\x7d/api/chat` attempt: a 200 response with a
JSON body, a non-200 status with body text, a timeout
(`asyncio.TimeoutError`), or a connection-class exception
(`aiohttp.ClientError` / `ConnectionError`) whose `str` is `msg`. -/
inductive TPAttempt where
  | ok (body : Json)
  | httpStatus (code : Nat) (text : String)
  | timeout
  | connExc (msg : String)

/-- Classification of one attempt after the handler chain of
`_call_ollama_chat` ran: a parsed content value, a connection-class failure
(which may trigger failover), or any other exception (which may not). -/
inductive TPStep where
  | success (content : Json)
  | connFail (msg : String)
  | otherFail (msg : String)

/-- Python's `k in x` membership test as used on the parsed response. -/
def pyIn (key : String) (j : Json) : Except String Bool :=
  match j with
  | .obj kvs => .ok (jget kvs key).isSome
  | .arr es => .ok (es.any fun e => match e with | .str s => s == key | _ => false)
  | .str s => .ok (pyContains s key)
  | _ => .error "TypeError: argument is not iterable"

/-- The `elif "response" in data` arm of the response parse (lines 156-159),
falling through to `raise Exception("Unexpected response format from
Ollama")`. -/
def tpParseResponseTail (data : Json) : TPStep :=
  match pyIn "response" data with
  | .error m => .otherFail m
  | .ok hasR =>
    if hasR then
      match data with
      | .obj kvs =>
        match jget kvs "response" with
        | some v => .success v
        | none => .otherFail "KeyError: response"
      | _ => .otherFail "TypeError: indices must be integers"
    else .otherFail "Unexpected response format from Ollama"

/-- Parsing of a 200 response body (lines 147-159).  `self.use_api` can never
become True (no assignment in the source sets it), so only the direct-Ollama
branch is modelled: `data["message"]["content"]` when present, else
`data["response"]`, else the Unexpected-format exception. -/
def tpParseResponse (data : Json) : TPStep :=
  match pyIn "message" data with
  | .error m => .otherFail m
  | .ok hasMsg =>
    if hasMsg then
      match data with
      | .obj kvs =>
        match jget kvs "message" with
        | some msgVal =>
          match pyIn "content" msgVal with
          | .error m => .otherFail m
          | .ok hasC =>
            if hasC then
              match msgVal with
              | .obj mkvs =>
                match jget mkvs "content" with
                | some v => .success v
                | none => .otherFail "KeyError: content"
              | _ => .otherFail "TypeError: indices must be integers"
            else tpParseResponseTail data
        | none => .otherFail "KeyError: message"
      | _ => .otherFail "TypeError: indices must be integers"
    else tpParseResponseTail data

/-- One attempted call of `_call_ollama_chat` at the current base location
(the aiohttp branch, lines 112-128, plus the handler chain 129-145 applied to
a single attempt): a 530 status or a body mentioning Cloudflare is converted
to a `ConnectionError` (connection class); any other non-200 status and a
timeout raise plain `Exception`s (never failover); connection-class
exceptions pass through. -/
def tpCallOnce (st : TPState) (oracle : String → TPAttempt) : TPStep :=
  let url := st.base_url ++ "/api/chat"
  match oracle url with
  | .ok body => tpParseResponse body
  | .httpStatus code text =>
    if code == 530 || pyContains text "Cloudflare" then
      .connFail "Cloudflare Tunnel error (530): Remote endpoint unavailable"
    else .otherFail ("Ollama API error (" ++ toString code ++ "): " ++ text)
  | .timeout => .otherFail "Ollama request timeout (120s)"
  | .connExc m => .connFail m

/-- The `if not self._api_checked: await self._check_api_available()` prologue
of `_call_ollama_chat` (lines 78-79). -/
def apiCheckStep (st : TPState) : TPState :=
  if !st.api_checked then checkApiAvailable st else st

/-- Shallow embedding of `_call_ollama_chat` (lines 75-159) with its single
self-recursive failover retry unrolled (the recursive call runs with
`_fallback_used = True`, so it can never recurse again).  Returns the call
result, the successor state, and the ordered list of URLs attempted. -/
def tpCallOllamaChat (st0 : TPState) (oracle : String → TPAttempt) :
    Except String Json × TPState × List String :=
  let st := apiCheckStep st0
  let url1 := st.base_url ++ "/api/chat"
  match tpCallOnce st oracle with
  | .success c => (.ok c, st, [url1])
  | .otherFail m => (.error m, st, [url1])
  | .connFail m =>
    if !st.fallback_used && st.base_url != st.fallback_url then
      let st' := { st with base_url := st.fallback_url, fallback_used := true }
      let url2 := st'.base_url ++ "/api/chat"
      match tpCallOnce st' oracle with
      | .success c => (.ok c, st', [url1, url2])
      | .otherFail m2 => (.error m2, st', [url1, url2])
      | .connFail m2 =>
        (.error ("Ollama API unavailable. Tried " ++ st'.base_url ++
           " and fallback failed: " ++ m2), st', [url1, url2])
    else
      (.error ("Ollama API unavailable. Tried " ++ st.base_url ++
         " and fallback failed: " ++ m), st, [url1])

/-! ## The gateway route table (ollama_backend/src/api/endpoints.py) -/

/-- An HTTP route of the gateway; `requiresAuth` records whether the source
declares the `Depends(verify_api_key)` dependency on that route. -/
structure Route where
  method : String
  path : String
  requiresAuth : Bool
deriving DecidableEq

/-- The gateway's public routes as declared by the decorators of
endpoints.py.  `GET /health` (line 92), `GET /models` (line 97) and
`GET /api/tags` (line 105) take no dependency; every `POST` route does
(lines 113-212). -/
def gatewayRoutes : List Route :=
  [⟨"GET", "/health", false⟩,
   ⟨"GET", "/models", false⟩,
   ⟨"GET", "/api/tags", false⟩,
   ⟨"POST", "/completions", true⟩,
   ⟨"POST", "/chat", true⟩,
   ⟨"POST", "/api/chat", true⟩,
   ⟨"POST", "/chat/completions", true⟩,
   ⟨"POST", "/api/generate", true⟩,
   ⟨"POST", "/stream", true⟩]

/-- Result of the auth dependency: pass, or an HTTPException. -/
inductive AuthDecision where
  | allow
  | deny (code : Nat) (detail : String)
deriving DecidableEq

/-- Shallow embedding of `verify_api_key` (lines 42-54): auth is disabled
entirely when no key is configured; otherwise missing credentials and
mismatched credentials are rejected with 401. -/
def verifyApiKey (apiKey : String) (creds : Option String) : AuthDecision :=
  if apiKey == "" then .allow
  else
    match creds with
    | none => .deny 401 "API key required. Provide Authorization header: Bearer <key>"
    | some c => if c != apiKey then .deny 401 "Invalid API key" else .allow

/-- Admission decision for a request: the dependency runs only on routes that
declare it. -/
def routeAdmits (r : Route) (apiKey : String) (creds : Option String) : AuthDecision :=
  if r.requiresAuth then verifyApiKey apiKey creds else .allow

/-! ## Auxiliary values and accessors used by the claim statements -/

/-- Accessor: the `edges` list of a workflow value, when present. -/
def workflowEdges (w : Json) : Option (List Json) :=
  match w with
  | .obj kvs =>
    match jget kvs "edges" with
    | some (.arr es) => some es
    | _ => none
  | _ => none

/-- A workflow whose single edge references the node ids `a` and `b` while
the node list is empty: its references are dangling. -/
def danglingWorkflow : Json :=
  .obj [("nodes", .arr []),
        ("edges", .arr [.obj [("id", .str "e1"), ("source", .str "a"), ("target", .str "b")]])]

/-- A non-streaming daemon response carrying `content` under
`message.content`. -/
def msgBody (s : String) : Json :=
  .obj [("message", .obj [("content", .str s)])]

/-- A streamed daemon response as assembled by `call_ollama_chat` line 216. -/
def streamBody (s : String) : Json :=
  .obj [("message", .obj [("content", .str s)]), ("response", .str s)]

/-! ## Dictionary lemmas -/

theorem jget_setKey_self (kvs : List (String × Json)) (k : String) (v : Json) :
    jget (setKey kvs k v) k = some v := by
  induction kvs with
  | nil => simp [setKey, jget]
  | cons p t ih =>
    obtain ⟨k', v'⟩ := p
    by_cases h : (k' == k) = true
    · simp [setKey, h, jget]
    · simp [setKey, h, jget, ih]

theorem jget_setKey_ne (kvs : List (String × Json)) (k k2 : String) (v : Json)
    (h : k2 ≠ k) : jget (setKey kvs k v) k2 = jget kvs k2 := by
  have hk : (k == k2) = false := beq_eq_false_iff_ne.mpr (Ne.symm h)
  induction kvs with
  | nil => simp [setKey, jget, hk]
  | cons p t ih =>
    obtain ⟨k', v'⟩ := p
    by_cases h' : (k' == k) = true
    · have : k' = k := eq_of_beq h'
      subst this
      simp [setKey, h', jget, hk]
    · simp [setKey, h', jget, ih]

theorem setKey_ne_nil (kvs : List (String × Json)) (k : String) (v : Json) :
    setKey kvs k v ≠ [] := by
  cases kvs with
  | nil => simp [setKey]
  | cons p t =>
    obtain ⟨k', v'⟩ := p
    by_cases h : (k' == k) = true <;> simp [setKey, h]

theorem jget_ensureKey_ne (kvs : List (String × Json)) (k k2 : String) (v : Json)
    (h : k2 ≠ k) : jget (ensureKey kvs k v) k2 = jget kvs k2 := by
  unfold ensureKey
  split
  · exact jget_setKey_ne kvs k k2 v h
  · rfl

theorem jget_ensureKey_isSome (kvs : List (String × Json)) (k : String) (v : Json) :
    (jget (ensureKey kvs k v) k).isSome = true := by
  unfold ensureKey
  split
  · rw [jget_setKey_self]; rfl
  · rename_i h
    cases hj : jget kvs k with
    | none => rw [hj] at h; simp at h
    | some _ => rfl

theorem jget_ite_setKey_ne (c : Prop) [Decidable c] (kvs : List (String × Json))
    (k k2 : String) (v : Json) (h : k2 ≠ k) :
    jget (if c then setKey kvs k v else kvs) k2 = jget kvs k2 := by
  split
  · exact jget_setKey_ne kvs k k2 v h
  · rfl

/-! ## Structural validity of repaired workflows -/

theorem nodeComplete_defaultNode (i : Nat) : nodeComplete (defaultNode i) = true := rfl

theorem nodeComplete_fixNode (i : Nat) (n : Json) : nodeComplete (fixNode i n) = true := by
  cases n with
  | obj kvs =>
    simp only [fixNode, nodeComplete]
    rw [jget_ensureKey_ne _ _ _ _ (by decide), jget_ensureKey_ne _ _ _ _ (by decide),
        jget_ensureKey_ne _ _ _ _ (by decide), jget_ensureKey_isSome]
    rw [jget_ensureKey_ne _ _ _ _ (by decide), jget_ensureKey_ne _ _ _ _ (by decide),
        jget_ensureKey_isSome]
    rw [jget_ensureKey_ne _ _ _ _ (by decide), jget_ensureKey_isSome]
    rw [jget_ensureKey_isSome]
    rfl
  | null => exact nodeComplete_defaultNode i
  | bool b => exact nodeComplete_defaultNode i
  | num m => exact nodeComplete_defaultNode i
  | str s => exact nodeComplete_defaultNode i
  | arr es => exact nodeComplete_defaultNode i

theorem fixNodes_all (l : List Json) (i : Nat) : (fixNodes l i).all nodeComplete = true := by
  induction l generalizing i with
  | nil => rfl
  | cons hd t ih =>
    simp [fixNodes, List.all_cons, nodeComplete_fixNode, ih]

theorem fixEdges_ok_complete (es : List Json) (i : Nat) (es' : List Json)
    (h : fixEdges es i = .ok es') : ∀ e ∈ es', edgeComplete e = true := by
  induction es generalizing i es' with
  | nil =>
    simp only [fixEdges] at h
    cases h
    intro e he
    simp at he
  | cons hd t ih =>
    cases hd with
    | obj kvs =>
      simp only [fixEdges] at h
      split at h
      · cases h
      · rename_i hst
        cases hrec : fixEdges t (i + 1) with
        | ok t' =>
          rw [hrec] at h
          cases h
          intro e he
          rcases List.mem_cons.mp he with rfl | ht
          · simp only [edgeComplete]
            rw [jget_ensureKey_isSome]
            have h1 : ¬((jget (ensureKey kvs "id" (.str ("edge_" ++ toString (i + 1)))) "source").isNone = true
                ∨ (jget (ensureKey kvs "id" (.str ("edge_" ++ toString (i + 1)))) "target").isNone = true) := by
              intro hc
              apply hst
              rcases hc with hc | hc <;> simp [hc]
            push_neg at h1
            obtain ⟨hs, ht'⟩ := h1
            cases hjs : jget (ensureKey kvs "id" (.str ("edge_" ++ toString (i + 1)))) "source" with
            | none => rw [hjs] at hs; simp at hs
            | some _ =>
              cases hjt : jget (ensureKey kvs "id" (.str ("edge_" ++ toString (i + 1)))) "target" with
              | none => rw [hjt] at ht'; simp at ht'
              | some _ => simp [hjs, hjt]
          · exact ih (i + 1) t' hrec e ht
        | error m =>
          rw [hrec] at h
          cases h
    | null => simp [fixEdges] at h
    | bool b => simp [fixEdges] at h
    | num m => simp [fixEdges] at h
    | str s => simp [fixEdges] at h
    | arr l => simp [fixEdges] at h


theorem jget_fixListField_ne (kvs : List (String × Json)) (k k2 : String) (h : k2 ≠ k) :
    jget (fixListField kvs k) k2 = jget kvs k2 := by
  unfold fixListField
  split
  · exact jget_setKey_ne kvs k k2 _ h
  · rfl

theorem jget_fixListField_arr (kvs : List (String × Json)) (k : String) :
    ∃ l, jget (fixListField kvs k) k = some (.arr l) := by
  unfold fixListField
  split
  · exact ⟨[], jget_setKey_self kvs k (.arr [])⟩
  · rename_i hc
    cases hj : jget kvs k with
    | none => rw [hj] at hc; simp at hc
    | some v =>
      cases v with
      | arr l => exact ⟨l, rfl⟩
      | null => rw [hj] at hc; simp at hc
      | bool b => rw [hj] at hc; simp at hc
      | num n => rw [hj] at hc; simp at hc
      | str s => rw [hj] at hc; simp at hc
      | obj o => rw [hj] at hc; simp at hc

theorem jget_fixListField_of_arr (kvs : List (String × Json)) (k : String) (es : List Json)
    (h : jget kvs k = some (.arr es)) : jget (fixListField kvs k) k = some (.arr es) := by
  simp [fixListField, h]

theorem jget_fixStrField_ne (kvs : List (String × Json)) (k : String) (d : String)
    (k2 : String) (h : k2 ≠ k) : jget (fixStrField kvs k d) k2 = jget kvs k2 := by
  unfold fixStrField
  split
  · exact jget_setKey_ne kvs k k2 _ h
  · rfl

theorem jget_fixStrField_isSome (kvs : List (String × Json)) (k : String) (d : String) :
    (jget (fixStrField kvs k d) k).isSome = true := by
  unfold fixStrField
  split
  · rw [jget_setKey_self]; rfl
  · rename_i hc
    cases hj : jget kvs k with
    | none => rw [hj] at hc; simp at hc
    | some v => rfl

theorem jget_fixTopFields_nodes (kvs : List (String × Json)) :
    ∃ l, jget (fixTopFields kvs) "nodes" = some (.arr l) := by
  unfold fixTopFields
  rw [jget_fixStrField_ne _ _ _ _ (by decide), jget_fixStrField_ne _ _ _ _ (by decide),
      jget_fixListField_ne _ _ _ (by decide)]
  exact jget_fixListField_arr kvs "nodes"

theorem jget_fixTopFields_edges (kvs : List (String × Json)) :
    ∃ l, jget (fixTopFields kvs) "edges" = some (.arr l) := by
  unfold fixTopFields
  rw [jget_fixStrField_ne _ _ _ _ (by decide), jget_fixStrField_ne _ _ _ _ (by decide)]
  exact jget_fixListField_arr _ "edges"

theorem jget_fixTopFields_edges_of_arr (kvs : List (String × Json)) (es : List Json)
    (h : jget kvs "edges" = some (.arr es)) :
    jget (fixTopFields kvs) "edges" = some (.arr es) := by
  unfold fixTopFields
  rw [jget_fixStrField_ne _ _ _ _ (by decide), jget_fixStrField_ne _ _ _ _ (by decide)]
  apply jget_fixListField_of_arr
  rw [jget_fixListField_ne _ _ _ (by decide)]
  exact h

theorem jget_fixTopFields_name (kvs : List (String × Json)) :
    (jget (fixTopFields kvs) "name").isSome = true := by
  unfold fixTopFields
  rw [jget_fixStrField_ne _ _ _ _ (by decide)]
  exact jget_fixStrField_isSome _ "name" _

theorem jget_fixTopFields_summary (kvs : List (String × Json)) :
    (jget (fixTopFields kvs) "summary").isSome = true := by
  exact jget_fixStrField_isSome _ "summary" _

theorem ensureCompleteWorkflowJson_ok_valid (wf w : Json)
    (h : ensureCompleteWorkflowJson wf = .ok w) :
    wfStructValid w = true ∧ pyTruthy w = true := by
  cases wf with
  | obj kvs0 =>
    simp only [ensureCompleteWorkflowJson] at h
    by_cases he : kvs0.isEmpty = true
    · simp [he] at h
    · simp only [he, if_false] at h
      obtain ⟨nsl, hns⟩ := jget_fixTopFields_nodes kvs0
      obtain ⟨esl, hes⟩ := jget_fixTopFields_edges kvs0
      have hes5 : jget (setKey (fixTopFields kvs0) "nodes" (.arr (fixNodes nsl 0))) "edges" =
          some (.arr esl) := by
        rw [jget_setKey_ne _ _ _ _ (by decide)]
        exact hes
      rw [hns, hes5] at h
      cases hfe : fixEdges esl 0 with
      | error m => rw [hfe] at h; simp at h
      | ok es' =>
        rw [hfe] at h
        have hw : w = .obj (setKey (setKey (fixTopFields kvs0) "nodes"
            (.arr (fixNodes nsl 0))) "edges" (.arr es')) := by
          cases h; rfl
        subst hw
        have h1 : (setKey (setKey (fixTopFields kvs0) "nodes" (.arr (fixNodes nsl 0)))
            "edges" (.arr es')).isEmpty = false := by
          cases hsk : setKey (setKey (fixTopFields kvs0) "nodes" (.arr (fixNodes nsl 0)))
              "edges" (.arr es') with
          | nil => exact absurd hsk (setKey_ne_nil _ _ _)
          | cons a t => rfl
        constructor
        · simp only [wfStructValid]
          have hedges : jget (setKey (setKey (fixTopFields kvs0) "nodes"
              (.arr (fixNodes nsl 0))) "edges" (.arr es')) "edges" = some (.arr es') :=
            jget_setKey_self _ _ _
          have hnodes : jget (setKey (setKey (fixTopFields kvs0) "nodes"
              (.arr (fixNodes nsl 0))) "edges" (.arr es')) "nodes" =
              some (.arr (fixNodes nsl 0)) := by
            rw [jget_setKey_ne _ _ _ _ (by decide)]
            exact jget_setKey_self _ _ _
          have hname : (jget (setKey (setKey (fixTopFields kvs0) "nodes"
              (.arr (fixNodes nsl 0))) "edges" (.arr es')) "name").isSome = true := by
            rw [jget_setKey_ne _ _ _ _ (by decide), jget_setKey_ne _ _ _ _ (by decide)]
            exact jget_fixTopFields_name kvs0
          have hsum : (jget (setKey (setKey (fixTopFields kvs0) "nodes"
              (.arr (fixNodes nsl 0))) "edges" (.arr es')) "summary").isSome = true := by
            rw [jget_setKey_ne _ _ _ _ (by decide), jget_setKey_ne _ _ _ _ (by decide)]
            exact jget_fixTopFields_summary kvs0
          have hall : es'.all edgeComplete = true :=
            List.all_eq_true.mpr fun e hme => fixEdges_ok_complete esl 0 es' hfe e hme
          rw [hnodes, hedges]
          simp [h1, fixNodes_all, hall, hname, hsum]
        · simp [pyTruthy, h1]
  | null => simp [ensureCompleteWorkflowJson] at h
  | bool b => simp [ensureCompleteWorkflowJson] at h
  | num n => simp [ensureCompleteWorkflowJson] at h
  | str s => simp [ensureCompleteWorkflowJson] at h
  | arr l => simp [ensureCompleteWorkflowJson] at h

/-! ## Claim C2: retry bound of the gateway client -/

/-- Claim C2: an `InferenceClient` configured with `max_retries = 3` issues
exactly 4 HTTP attempts against an endpoint whose every request times out —
on the generate path (`_make_request`) and on the chat path
(`_make_chat_request`) alike — and then surfaces the timeout error to the
caller. -/
theorem claim_C2_retry_bound :
    makeRequest { max_retries := 3 } (fun _ => .timeout) = (.error .timeout, 4) ∧
    makeChatRequest { max_retries := 3 } (fun _ => .timeout) = (.error .timeout, 4) :=
  ⟨rfl, rfl⟩

/-! ## Claim C8: bearer-token gating of the gateway routes -/

/-- Claim C8 counterexample: with a shared secret configured, the gateway
route `GET /models` — a route other than `GET /health` — accepts a request
carrying no bearer token, because the source declares no auth dependency on
it.  This refutes the claim that every route except `GET /health` rejects
token-less requests. -/
theorem claim_C8_counterexample :
    (⟨"GET", "/models", false⟩ : Route) ∈ gatewayRoutes ∧
    ("/models" : String) ≠ "/health" ∧
    ("secret" : String) ≠ "" ∧
    routeAdmits ⟨"GET", "/models", false⟩ "secret" none = .allow := by
  refine ⟨?_, by decide, by decide, rfl⟩
  simp [gatewayRoutes]

/-- Claim C8 (amended): when a shared secret is configured, every gateway
route except `GET /health`, `GET /models` and `GET /api/tags` rejects a
request that lacks a token (or carries a wrong token) with a 401; when no
secret is configured, every route accepts requests without any token. -/
theorem claim_C8_amended (r : Route) (hr : r ∈ gatewayRoutes) (key : String) :
    (key ≠ "" → r.path ≠ "/health" → r.path ≠ "/models" → r.path ≠ "/api/tags" →
      routeAdmits r key none =
        .deny 401 "API key required. Provide Authorization header: Bearer <key>" ∧
      ∀ c, c ≠ key → routeAdmits r key (some c) = .deny 401 "Invalid API key") ∧
    (key = "" → ∀ creds, routeAdmits r key creds = .allow) := by
  fin_cases hr
  · exact ⟨fun _ h1 _ _ => absurd rfl h1, fun _ _ => rfl⟩
  · exact ⟨fun _ _ h2 _ => absurd rfl h2, fun _ _ => rfl⟩
  · exact ⟨fun _ _ _ h3 => absurd rfl h3, fun _ _ => rfl⟩
  all_goals
    refine ⟨fun hk _ _ _ => ⟨?_, fun c hc => ?_⟩, fun hk creds => ?_⟩
  all_goals try simp [routeAdmits, verifyApiKey, beq_eq_false_iff_ne.mpr hk]
  all_goals try (subst hk; rfl)
  all_goals simp [bne_iff_ne, hc]

/-- Witness for the amended C8 at `POST /chat` with key `secret`. -/
theorem claim_C8_amended_witness :
    routeAdmits ⟨"POST", "/chat", true⟩ "secret" none =
      .deny 401 "API key required. Provide Authorization header: Bearer <key>" ∧
    routeAdmits ⟨"POST", "/chat", true⟩ "" none = .allow :=
  ⟨((claim_C8_amended ⟨"POST", "/chat", true⟩ (by decide) "secret").1
      (by decide) (by simp) (by decide) (by simp)).1,
   (claim_C8_amended ⟨"POST", "/chat", true⟩ (by decide) "").2 rfl none⟩

/-! ## Claims C5, C6, C10: the validation routine -/

theorem fixEdges_error_missing (es : List Json) : ∀ (i : Nat),
    (∀ e ∈ es, e.isObj = true) → (∃ e ∈ es, edgeMissingST e = true) →
    fixEdges es i = .error ("Invalid edge at index " ++
      toString (i + es.findIdx edgeMissingST) ++ ": missing source or target") := by
  induction es with
  | nil =>
    intro i _ hex
    obtain ⟨e, he, _⟩ := hex
    simp at he
  | cons hd t ih =>
    intro i hobj hex
    cases hd with
    | obj kvs =>
      by_cases hh : edgeMissingST (.obj kvs) = true
      · have hcond : ((jget (ensureKey kvs "id" (.str ("edge_" ++ toString (i + 1)))) "source").isNone ||
            (jget (ensureKey kvs "id" (.str ("edge_" ++ toString (i + 1)))) "target").isNone) = true := by
          rw [jget_ensureKey_ne _ _ _ _ (by decide), jget_ensureKey_ne _ _ _ _ (by decide)]
          exact hh
        simp only [fixEdges, hcond, if_true, List.findIdx_cons, hh, cond_true, Nat.add_zero]
      · have hcond : ((jget (ensureKey kvs "id" (.str ("edge_" ++ toString (i + 1)))) "source").isNone ||
            (jget (ensureKey kvs "id" (.str ("edge_" ++ toString (i + 1)))) "target").isNone) = false := by
          rw [jget_ensureKey_ne _ _ _ _ (by decide), jget_ensureKey_ne _ _ _ _ (by decide)]
          cases hb : (jget kvs "source").isNone || (jget kvs "target").isNone
          · rfl
          · exact absurd hb hh
        have hex' : ∃ e ∈ t, edgeMissingST e = true := by
          obtain ⟨e, he, hme⟩ := hex
          rcases List.mem_cons.mp he with rfl | hmem
          · exact absurd hme hh
          · exact ⟨e, hmem, hme⟩
        have hrec := ih (i + 1) (fun e he' => hobj e (List.mem_cons_of_mem _ he')) hex'
        have harith : i + 1 + t.findIdx edgeMissingST = i + (t.findIdx edgeMissingST + 1) := by
          omega
        rw [harith] at hrec
        simp only [fixEdges, hcond, Bool.false_eq_true, if_false, hrec, List.findIdx_cons,
          hh, cond_false]
    | null => exact absurd (hobj _ (List.mem_cons_self _ _)) (by simp [Json.isObj])
    | bool b => exact absurd (hobj _ (List.mem_cons_self _ _)) (by simp [Json.isObj])
    | num n => exact absurd (hobj _ (List.mem_cons_self _ _)) (by simp [Json.isObj])
    | str s => exact absurd (hobj _ (List.mem_cons_self _ _)) (by simp [Json.isObj])
    | arr l => exact absurd (hobj _ (List.mem_cons_self _ _)) (by simp [Json.isObj])

/-- Claim C6: validation defaulting.  First, the concrete salvage example:
the workflow with one empty-dict node yields node id `node_1`, type `noop`,
the default position and empty config.  Second, for any workflow whose edges
are all dicts and at least one lacks `source` or `target`, validation raises
the fatal error naming the first offending edge's index.  Third, nodes are
never a cause of rejection: any non-empty workflow dict whose edge list is
empty validates successfully, whatever its nodes contain. -/
theorem claim_C6_validation_defaulting :
    ensureCompleteWorkflowJson (.obj [("nodes", .arr [.obj []]), ("edges", .arr [])]) =
      .ok (.obj [("nodes", .arr [.obj [("id", .str "node_1"), ("type", .str "noop"),
            ("position", .obj [("x", .num 250), ("y", .num 100)]), ("config", .obj [])]]),
          ("edges", .arr []), ("name", .str "Generated Workflow"),
          ("summary", .str "AI-generated workflow")]) ∧
    (∀ (kvs : List (String × Json)) (es : List Json),
      kvs.isEmpty = false →
      jget kvs "edges" = some (.arr es) →
      (∀ e ∈ es, e.isObj = true) →
      (∃ e ∈ es, edgeMissingST e = true) →
      ensureCompleteWorkflowJson (.obj kvs) =
        .error ("Invalid edge at index " ++ toString (es.findIdx edgeMissingST) ++
          ": missing source or target")) ∧
    (∀ (kvs : List (String × Json)),
      kvs.isEmpty = false →
      jget kvs "edges" = some (.arr []) →
      ∃ w, ensureCompleteWorkflowJson (.obj kvs) = .ok w) := by
  refine ⟨rfl, ?_, ?_⟩
  · intro kvs es hne hje hobj hex
    simp only [ensureCompleteWorkflowJson, hne, Bool.false_eq_true, if_false]
    obtain ⟨nsl, hns⟩ := jget_fixTopFields_nodes kvs
    have hes5 : jget (setKey (fixTopFields kvs) "nodes" (.arr (fixNodes nsl 0))) "edges" =
        some (.arr es) := by
      rw [jget_setKey_ne _ _ _ _ (by decide)]
      exact jget_fixTopFields_edges_of_arr kvs es hje
    rw [hns, hes5, fixEdges_error_missing es 0 hobj hex]
    simp
  · intro kvs hne hje
    simp only [ensureCompleteWorkflowJson, hne, Bool.false_eq_true, if_false]
    obtain ⟨nsl, hns⟩ := jget_fixTopFields_nodes kvs
    have hes5 : jget (setKey (fixTopFields kvs) "nodes" (.arr (fixNodes nsl 0))) "edges" =
        some (.arr []) := by
      rw [jget_setKey_ne _ _ _ _ (by decide)]
      exact jget_fixTopFields_edges_of_arr kvs [] hje
    rw [hns, hes5]
    exact ⟨_, rfl⟩

/-- Witness for C6 at the spec's own example: the edge `\x7b"id": "e1"\x7d` is
rejected with an error naming index 0, and the empty-edges workflow with one
malformed node validates. -/
theorem claim_C6_validation_defaulting_witness :
    ensureCompleteWorkflowJson (.obj [("nodes", .arr []),
      ("edges", .arr [.obj [("id", .str "e1")]])]) =
      .error "Invalid edge at index 0: missing source or target" ∧
    ∃ w, ensureCompleteWorkflowJson (.obj [("nodes", .arr [.str "junk"]),
      ("edges", .arr [])]) = .ok w := by
  constructor
  · have := claim_C6_validation_defaulting.2.1
      [("nodes", .arr []), ("edges", .arr [.obj [("id", .str "e1")]])]
      [.obj [("id", .str "e1")]] rfl rfl (by decide) (by decide)
    simpa using this
  · exact claim_C6_validation_defaulting.2.2
      [("nodes", .arr [.str "junk"]), ("edges", .arr [])] rfl rfl

/-- Claim C5 counterexample: a workflow whose single edge references node ids
`a`/`b` that exist nowhere in its (empty) node list is accepted by
validation, and the accepted result violates the spec's referential-integrity
invariant — the code never compares edge endpoints against node ids. -/
theorem claim_C5_counterexample :
    ensureCompleteWorkflowJson danglingWorkflow =
      .ok (.obj [("nodes", .arr []),
        ("edges", .arr [.obj [("id", .str "e1"), ("source", .str "a"), ("target", .str "b")]]),
        ("name", .str "Generated Workflow"), ("summary", .str "AI-generated workflow")]) ∧
    edgeRefsValid (.obj [("nodes", .arr []),
        ("edges", .arr [.obj [("id", .str "e1"), ("source", .str "a"), ("target", .str "b")]]),
        ("name", .str "Generated Workflow"), ("summary", .str "AI-generated workflow")]) = false :=
  ⟨rfl, rfl⟩

/-- Claim C5 (amended): validation guarantees only that every edge of an
accepted workflow is a dict carrying `id`, `source` and `target` keys; their
values are never checked against the node ids, so dangling references are
accepted rather than rejected. -/
theorem claim_C5_amended (wf w : Json) (h : ensureCompleteWorkflowJson wf = .ok w) :
    ∃ es, workflowEdges w = some es ∧ ∀ e ∈ es, edgeComplete e = true := by
  obtain ⟨hv, _⟩ := ensureCompleteWorkflowJson_ok_valid wf w h
  cases w with
  | obj kvs =>
    simp only [wfStructValid, Bool.and_eq_true] at hv
    obtain ⟨⟨⟨⟨_, _⟩, hedges⟩, _⟩, _⟩ := hv
    cases hje : jget kvs "edges" with
    | none => rw [hje] at hedges; simp at hedges
    | some v =>
      cases v with
      | arr es =>
        rw [hje] at hedges
        exact ⟨es, by simp [workflowEdges, hje], fun e he => List.all_eq_true.mp hedges e he⟩
      | null => rw [hje] at hedges; simp at hedges
      | bool b => rw [hje] at hedges; simp at hedges
      | num n => rw [hje] at hedges; simp at hedges
      | str s => rw [hje] at hedges; simp at hedges
      | obj o => rw [hje] at hedges; simp at hedges
  | null => simp [wfStructValid] at hv
  | bool b => simp [wfStructValid] at hv
  | num n => simp [wfStructValid] at hv
  | str s => simp [wfStructValid] at hv
  | arr l => simp [wfStructValid] at hv

/-- Witness for the amended C5 at the dangling-reference workflow. -/
theorem claim_C5_amended_witness :
    ∃ es, workflowEdges (.obj [("nodes", .arr []),
        ("edges", .arr [.obj [("id", .str "e1"), ("source", .str "a"), ("target", .str "b")]]),
        ("name", .str "Generated Workflow"), ("summary", .str "AI-generated workflow")]) =
      some es ∧ ∀ e ∈ es, edgeComplete e = true :=
  claim_C5_amended danglingWorkflow
    (.obj [("nodes", .arr []),
      ("edges", .arr [.obj [("id", .str "e1"), ("source", .str "a"), ("target", .str "b")]]),
      ("name", .str "Generated Workflow"), ("summary", .str "AI-generated workflow")]) rfl

/-- Claim C10: asymmetric malformed-element handling in validation.  A
non-dict top-level workflow, or an empty dict, is fatal; a non-dict nodes
entry is silently replaced by a complete default node; a non-dict edges
entry is fatal with an error naming its index; and the two concrete
workflows exhibit the asymmetry end to end. -/
theorem claim_C10_asymmetric_malformed :
    (∀ j : Json, j.isObj = false ∨ j = .obj [] →
      ensureCompleteWorkflowJson j = .error "Invalid workflow: must be an object") ∧
    (∀ (i : Nat) (n : Json), n.isObj = false → fixNode i n = defaultNode i) ∧
    (∀ (e : Json) (t : List Json) (i : Nat), e.isObj = false →
      fixEdges (e :: t) i =
        .error ("Invalid edge at index " ++ toString i ++ ": must be an object")) ∧
    ensureCompleteWorkflowJson (.obj [("nodes", .arr [.num 5]), ("edges", .arr [])]) =
      .ok (.obj [("nodes", .arr [defaultNode 0]), ("edges", .arr []),
        ("name", .str "Generated Workflow"), ("summary", .str "AI-generated workflow")]) ∧
    ensureCompleteWorkflowJson (.obj [("nodes", .arr []), ("edges", .arr [.num 5])]) =
      .error "Invalid edge at index 0: must be an object" := by
  refine ⟨?_, ?_, ?_, rfl, rfl⟩
  · intro j hj
    rcases hj with hj | rfl
    · cases j <;> first | rfl | simp [Json.isObj] at hj
    · rfl
  · intro i n hn
    cases n <;> first | rfl | simp [Json.isObj] at hn
  · intro e t i he
    cases e <;> first | rfl | simp [Json.isObj] at he

/-- Witness for C10: the empty list (a non-dict) is rejected at top level,
and a non-dict node entry is replaced by the default node. -/
theorem claim_C10_asymmetric_malformed_witness :
    ensureCompleteWorkflowJson (.arr []) = .error "Invalid workflow: must be an object" ∧
    fixNode 0 (.num 5) = defaultNode 0 :=
  ⟨claim_C10_asymmetric_malformed.1 (.arr []) (Or.inl rfl),
   claim_C10_asymmetric_malformed.2.1 0 (.num 5) rfl⟩

/-! ## Claims C1, C9: the pipeline's terminal behaviour -/

theorem failUpdate_error_facts (r : JobRecord) (e : String) (hr : r.error_message = none) :
    ∀ m, (failUpdate r e).error_message = some m → m ≠ "" := by
  intro m hm
  by_cases hee : (e != "") = true
  · have hfe : (failUpdate r e).error_message = some e := by
      simp [failUpdate, updateJobStatus, hee]
    rw [hfe] at hm
    cases hm
    exact bne_iff_ne.mp hee
  · have hb : (e != "") = false := by
      cases hbb : (e != "")
      · rfl
      · exact absurd hbb hee
    have hfe : (failUpdate r e).error_message = none := by
      simp [failUpdate, updateJobStatus, hb, hr]
    rw [hfe] at hm
    simp at hm

theorem failUpdate_claimProps (r : JobRecord) (e : String) (hr : r.error_message = none) :
    ((failUpdate r e).status = "completed" ∨ (failUpdate r e).status = "failed") ∧
    ((failUpdate r e).status = "completed" →
      (failUpdate r e).progress = some 100 ∧
      ∃ w, (failUpdate r e).workflow_result = some w ∧
        wfStructValid w = true ∧ pyTruthy w = true) ∧
    (∀ m, (failUpdate r e).error_message = some m → m ≠ "") :=
  ⟨Or.inr rfl, fun hc => absurd hc (by simp [failUpdate, updateJobStatus]),
   failUpdate_error_facts r e hr⟩

theorem completed_claimProps (r : JobRecord) (wf : Json) (hr : r.error_message = none)
    (hv : wfStructValid wf = true) (ht : pyTruthy wf = true) :
    ((updateJobStatus r "completed" (some 100) (some "validation") none (some wf)).status =
        "completed" ∨
     (updateJobStatus r "completed" (some 100) (some "validation") none (some wf)).status =
        "failed") ∧
    ((updateJobStatus r "completed" (some 100) (some "validation") none (some wf)).status =
        "completed" →
      (updateJobStatus r "completed" (some 100) (some "validation") none (some wf)).progress =
        some 100 ∧
      ∃ w, (updateJobStatus r "completed" (some 100) (some "validation") none
        (some wf)).workflow_result = some w ∧ wfStructValid w = true ∧ pyTruthy w = true) ∧
    (∀ m, (updateJobStatus r "completed" (some 100) (some "validation") none
      (some wf)).error_message = some m → m ≠ "") := by
  refine ⟨Or.inl rfl, fun _ => ⟨rfl, wf, ?_, hv, ht⟩, fun m hm => ?_⟩
  · simp [updateJobStatus, ht]
  · rw [show (updateJobStatus r "completed" (some 100) (some "validation") none
      (some wf)).error_message = r.error_message from rfl, hr] at hm
    exact absurd hm (by simp)

/-- Claim C1 (amended): for every job record with no pre-existing error
message, whatever the two daemon call results are, `generate_workflow` leaves
the job in exactly one of the terminal statuses `completed` or `failed`
(never `processing`); on `completed` the persisted progress is 100 and the
persisted `workflow_result` is a structurally valid, truthy (non-empty)
workflow; and any persisted `error_message` is non-empty.  (The original
claim additionally demanded that every `failed` outcome persist a non-empty
error message; the counterexample shows an empty-message daemon exception is
silently dropped by `update_job_status`, leaving `error_message` unset.) -/
theorem claim_C1_amended (r0 : JobRecord) (aRes gRes : Except String Json)
    (h0 : r0.error_message = none) :
    ((generateWorkflow r0 aRes gRes).1.status = "completed" ∨
     (generateWorkflow r0 aRes gRes).1.status = "failed") ∧
    ((generateWorkflow r0 aRes gRes).1.status = "completed" →
      (generateWorkflow r0 aRes gRes).1.progress = some 100 ∧
      ∃ w, (generateWorkflow r0 aRes gRes).1.workflow_result = some w ∧
        wfStructValid w = true ∧ pyTruthy w = true) ∧
    (∀ m, (generateWorkflow r0 aRes gRes).1.error_message = some m → m ≠ "") := by
  cases aRes with
  | error e => exact failUpdate_claimProps _ e h0
  | ok aBody =>
    simp only [generateWorkflow]
    cases hgc : getMessageContent aBody with
    | error e => dsimp only; exact failUpdate_claimProps _ e h0
    | ok aContent =>
      dsimp only
      cases gRes with
      | error e => dsimp only; exact failUpdate_claimProps _ e h0
      | ok gBody =>
        dsimp only
        cases hgb : getMessageContent gBody with
        | error e => dsimp only; exact failUpdate_claimProps _ e h0
        | ok gContent =>
          dsimp only
          cases gContent with
          | str gs =>
            dsimp only
            cases hex : extractWorkflow gs with
            | error e => dsimp only; exact failUpdate_claimProps _ e h0
            | ok wf0 =>
              dsimp only
              cases hen : ensureCompleteWorkflowJson wf0 with
              | error e => dsimp only; exact failUpdate_claimProps _ e h0
              | ok wf =>
                dsimp only
                obtain ⟨hv, ht⟩ := ensureCompleteWorkflowJson_ok_valid wf0 wf hen
                exact completed_claimProps _ wf h0 hv ht
          | null => dsimp only; exact failUpdate_claimProps _ _ h0
          | bool b => dsimp only; exact failUpdate_claimProps _ _ h0
          | num n => dsimp only; exact failUpdate_claimProps _ _ h0
          | arr l => dsimp only; exact failUpdate_claimProps _ _ h0
          | obj o => dsimp only; exact failUpdate_claimProps _ _ h0

/-- Witness for the amended C1: a failing analyze call drives the fresh job
to a terminal status. -/
theorem claim_C1_amended_witness :
    (generateWorkflow freshJob (.error "boom") (.ok (streamBody "x"))).1.status = "completed" ∨
    (generateWorkflow freshJob (.error "boom") (.ok (streamBody "x"))).1.status = "failed" :=
  (claim_C1_amended freshJob (.error "boom") (.ok (streamBody "x")) rfl).1

/-- Claim C1 counterexample: when every analyze attempt raises an exception
whose `str` is empty (as `httpx` timeout exceptions commonly are), the job
ends `failed` but `update_job_status` drops the falsy error string, so no
error message is persisted — refuting the claim that a failed job always
carries a non-empty persisted `error_message`. -/
theorem claim_C1_counterexample :
    (generateWorkflowRun freshJob (fun _ => .exc "") (fun _ => .ok "\x7b\x7d")).1.status =
      "failed" ∧
    (generateWorkflowRun freshJob (fun _ => .exc "") (fun _ => .ok "\x7b\x7d")).1.error_message =
      none :=
  ⟨rfl, rfl⟩

theorem getMessageContent_msgBody (s : String) :
    getMessageContent (msgBody s) = .ok (.str s) := by
  have hred : getMessageContent (msgBody s) =
      .ok (if pyTruthy (.str s) = true then .str s else .str "") := rfl
  by_cases h : s = ""
  · subst h
    rfl
  · have hpt : pyTruthy (.str s) = true := by simpa [pyTruthy, bne_iff_ne] using h
    rw [hred, hpt]
    simp

theorem getMessageContent_streamBody (s : String) :
    getMessageContent (streamBody s) = .ok (.str s) := by
  have hred : getMessageContent (streamBody s) =
      .ok (if pyTruthy (.str s) = true then .str s else .str s) := rfl
  cases hb : pyTruthy (.str s) <;> simp [hred, hb]

/-- Claim C9: an analyze-phase response that does not parse as JSON even
after fence stripping is replaced by the generic fallback summary; the
pipeline's outcome is then identical to that of any cleanly parsing analyze
response (here the canonical empty object), and the generation phase is
still issued exactly once — an analyze parse failure alone never fails the
job. -/
theorem claim_C9_analyze_tolerance (s : String)
    (hp : jsonParse (stripFences s) = none) :
    analysisResult (.str s) = analyzeFallback ∧
    (∀ (r0 : JobRecord) (gRes : Except String Json),
      generateWorkflow r0 (.ok (msgBody s)) gRes =
        generateWorkflow r0 (.ok (msgBody "\x7b\x7d")) gRes) ∧
    (∀ (r0 : JobRecord) (gRes : Except String Json),
      (generateWorkflow r0 (.ok (msgBody s)) gRes).2 = 1) := by
  refine ⟨by simp [analysisResult, hp], ?_, ?_⟩
  · intro r0 gRes
    simp only [generateWorkflow, getMessageContent_msgBody]
  · intro r0 gRes
    simp only [generateWorkflow, getMessageContent_msgBody]
    cases gRes with
    | error e => rfl
    | ok gBody =>
      dsimp only
      cases hgb : getMessageContent gBody with
      | error e => rfl
      | ok c =>
        dsimp only
        cases c with
        | str gs =>
          dsimp only
          cases hex : extractWorkflow gs with
          | error e => rfl
          | ok wf0 =>
            dsimp only
            cases hen : ensureCompleteWorkflowJson wf0 with
            | error m => rfl
            | ok wf => rfl
        | null => rfl
        | bool b => rfl
        | num n => rfl
        | arr l => rfl
        | obj o => rfl

/-- Witness for C9 at an unparseable analyze response. -/
theorem claim_C9_analyze_tolerance_witness :
    analysisResult (.str "not json") = analyzeFallback :=
  (claim_C9_analyze_tolerance "not json" rfl).1

/-! ## Claim C4: sticky failover of the text processor -/

theorem apiCheckStep_base_url (st : TPState) : (apiCheckStep st).base_url = st.base_url := by
  unfold apiCheckStep
  split <;> rfl

theorem apiCheckStep_fallback_url (st : TPState) :
    (apiCheckStep st).fallback_url = st.fallback_url := by
  unfold apiCheckStep
  split <;> rfl

theorem apiCheckStep_fallback_used (st : TPState) :
    (apiCheckStep st).fallback_used = st.fallback_used := by
  unfold apiCheckStep
  split <;> rfl

/-- Claim C4 (amended): on a connection-class failure with the fallback not
yet engaged and a distinct fallback location, the client permanently repoints
`base_url` at the fallback, retries the same call exactly once there (the
attempted URLs are precisely primary then fallback), and never returns to
the primary — any call from an engaged state contacts only the current
(fallback) location.  If the retry also fails with a connection-class error,
the propagated message is
`Ollama API unavailable. Tried <fallback> and fallback failed: <e>`, which
names the fallback location only.  (The original claim said the error names
both attempted locations; the counterexample shows the primary location is
absent from the message.) -/
theorem claim_C4_amended :
    (∀ (st : TPState) (oracle : String → TPAttempt) (m : String),
      st.fallback_used = false → st.base_url ≠ st.fallback_url →
      tpCallOnce (apiCheckStep st) oracle = .connFail m →
      (tpCallOllamaChat st oracle).2.1.base_url = st.fallback_url ∧
      (tpCallOllamaChat st oracle).2.1.fallback_used = true ∧
      (tpCallOllamaChat st oracle).2.2 =
        [st.base_url ++ "/api/chat", st.fallback_url ++ "/api/chat"] ∧
      (∀ m2,
        tpCallOnce
          { apiCheckStep st with base_url := st.fallback_url, fallback_used := true }
          oracle = .connFail m2 →
        (tpCallOllamaChat st oracle).1 =
          .error ("Ollama API unavailable. Tried " ++ st.fallback_url ++
            " and fallback failed: " ++ m2))) ∧
    (∀ (st : TPState) (oracle : String → TPAttempt),
      st.fallback_used = true →
      (tpCallOllamaChat st oracle).2.2 = [st.base_url ++ "/api/chat"] ∧
      (tpCallOllamaChat st oracle).2.1.base_url = st.base_url) := by
  constructor
  · intro st oracle m hf hne hc
    have hfu : (apiCheckStep st).fallback_used = false := by
      rw [apiCheckStep_fallback_used]; exact hf
    have hbne : (st.base_url != st.fallback_url) = true := bne_iff_ne.mpr hne
    simp only [tpCallOllamaChat, hc, hfu, hbne, Bool.not_false, Bool.true_and, if_true,
      apiCheckStep_base_url, apiCheckStep_fallback_url]
    cases hstep2 : tpCallOnce
        { base_url := st.fallback_url, fallback_url := st.fallback_url,
          use_api := (apiCheckStep st).use_api, api_checked := (apiCheckStep st).api_checked,
          fallback_used := true } oracle with
    | success c =>
      refine ⟨rfl, rfl, rfl, fun m2 hm2 => ?_⟩
      cases hm2
    | otherFail m2x =>
      refine ⟨rfl, rfl, rfl, fun m2 hm2 => ?_⟩
      cases hm2
    | connFail m2x =>
      refine ⟨rfl, rfl, rfl, fun m2 hm2 => ?_⟩
      cases hm2
      rfl
  · intro st oracle hf
    have hfu : (apiCheckStep st).fallback_used = true := by
      rw [apiCheckStep_fallback_used]; exact hf
    simp only [tpCallOllamaChat, hfu, Bool.not_true, Bool.false_and, Bool.false_eq_true,
      if_false, apiCheckStep_base_url]
    cases hstep2 : tpCallOnce (apiCheckStep st) oracle with
    | success c => exact ⟨rfl, apiCheckStep_base_url st⟩
    | otherFail mx => exact ⟨rfl, apiCheckStep_base_url st⟩
    | connFail mx => exact ⟨rfl, apiCheckStep_base_url st⟩

/-- Witness for the amended C4: the default text processor, against a daemon
whose primary location refuses connections and whose fallback succeeds,
permanently repoints at localhost. -/
theorem claim_C4_amended_witness :
    (tpCallOllamaChat initTextProcessor (fun url =>
      if url == "https://ollama-api.ctrlchecks.ai/api/chat" then .connExc "refused"
      else .ok (msgBody "hi"))).2.1.base_url = "http://localhost:11434" :=
  (claim_C4_amended.1 initTextProcessor
    (fun url =>
      if url == "https://ollama-api.ctrlchecks.ai/api/chat" then .connExc "refused"
      else .ok (msgBody "hi"))
    "refused" rfl (by decide) rfl).1

/-- Claim C4 counterexample: when both the primary and the fallback fail with
connection errors, the propagated message names only the fallback location —
the primary `https://ollama-api.ctrlchecks.ai` appears nowhere in it —
refuting the claim that the error names both attempted locations. -/
theorem claim_C4_counterexample :
    (tpCallOllamaChat initTextProcessor (fun _ => .connExc "Connection refused")).1 =
      .error ("Ollama API unavailable. Tried http://localhost:11434 and fallback failed: " ++
        "Connection refused") ∧
    pyContains
      "Ollama API unavailable. Tried http://localhost:11434 and fallback failed: Connection refused"
      "ollama-api.ctrlchecks.ai" = false := by
  exact ⟨rfl, by decide⟩

/-! ## Claim C3: dialect detection of the gateway client -/

theorem healthCheck_tunnel (c : OClient) (probe : String → ProbeOutcome)
    (ht : isNativeTunnel c.base_url = true) :
    (healthCheck c probe).probes = ["/api/tags"] ∧
    (healthCheck c probe).state.is_openai_compatible = false := by
  simp only [healthCheck, ht, if_true]
  cases hp : probe "/api/tags" with
  | status code text =>
    by_cases h200 : (code == 200) = true
    · simp [h200]
    · have h200f : (code == 200) = false := by
        cases hb : (code == 200)
        · rfl
        · exact absurd hb h200
      simp [h200f]
  | connExc m => simp
  | timeoutExc m => simp
  | otherExc m => simp

theorem healthCheck_openai_first (c : OClient) (probe : String → ProbeOutcome)
    (ht : isNativeTunnel c.base_url = false)
    (hsel : pyContains c.base_url "/v1/" = true ∨ c.is_openai_compatible = true) :
    (healthCheck c probe).probes.head? = some "/v1/models" ∧
    (∀ code text, probe "/v1/models" = .status code text → (code = 404 ∨ code = 403) →
      c.mode_detected = false →
      (healthCheck c probe).probes = ["/v1/models", "/api/tags"]) := by
  have hcond : (pyContains c.base_url "/v1/" || c.is_openai_compatible) = true := by
    rcases hsel with h | h <;> simp [h]
  simp only [healthCheck, ht, Bool.false_eq_true, if_false, hcond, if_true]
  constructor
  · cases hp : probe "/v1/models" with
    | status code text =>
      by_cases h200 : (code == 200) = true
      · simp [h200]
      · have h200f : (code == 200) = false := by
          cases hb : (code == 200)
          · rfl
          · exact absurd hb h200
        simp only [h200f, Bool.false_eq_true, if_false]
        by_cases h44 : ((code == 404 || code == 403) && !c.mode_detected) = true
        · simp only [h44, if_true]
          cases hp2 : probe "/api/tags" with
          | status fcode ftext =>
            by_cases hf200 : (fcode == 200) = true
            · simp [hf200]
            · have hf200f : (fcode == 200) = false := by
                cases hb : (fcode == 200)
                · rfl
                · exact absurd hb hf200
              simp [hf200f]
          | connExc m => simp
          | timeoutExc m => simp
          | otherExc m => simp
        · have h44f : ((code == 404 || code == 403) && !c.mode_detected) = false := by
            cases hb : ((code == 404 || code == 403) && !c.mode_detected)
            · rfl
            · exact absurd hb h44
          simp [h44f]
    | connExc m => simp
    | timeoutExc m => simp
    | otherExc m => simp
  · intro code text hpc hcode hnd
    rw [hpc]
    have h200f : (code == 200) = false := by
      rcases hcode with rfl | rfl <;> rfl
    have h44t : ((code == 404 || code == 403) && !c.mode_detected) = true := by
      rcases hcode with rfl | rfl <;> simp [hnd]
    simp only [h200f, Bool.false_eq_true, if_false, h44t, if_true]
    cases hp2 : probe "/api/tags" with
    | status fcode ftext =>
      by_cases hf200 : (fcode == 200) = true
      · simp [hf200]
      · have hf200f : (fcode == 200) = false := by
          cases hb : (fcode == 200)
          · rfl
          · exact absurd hb hf200
        simp [hf200f]
    | connExc m => simp
    | timeoutExc m => simp
    | otherExc m => simp

theorem healthCheck_native_first (c : OClient) (probe : String → ProbeOutcome)
    (ht : isNativeTunnel c.base_url = false)
    (hv1 : pyContains c.base_url "/v1/" = false)
    (hoc : c.is_openai_compatible = false) :
    (healthCheck c probe).probes.head? = some "/api/tags" ∧
    (∀ code text, probe "/api/tags" = .status code text → (code = 404 ∨ code = 403) →
      c.mode_detected = false →
      (healthCheck c probe).probes = ["/api/tags", "/v1/models"]) := by
  have hcond : (pyContains c.base_url "/v1/" || c.is_openai_compatible) = false := by
    simp [hv1, hoc]
  simp only [healthCheck, ht, Bool.false_eq_true, if_false, hcond]
  constructor
  · cases hp : probe "/api/tags" with
    | status code text =>
      by_cases h200 : (code == 200) = true
      · simp [h200]
      · have h200f : (code == 200) = false := by
          cases hb : (code == 200)
          · rfl
          · exact absurd hb h200
        simp only [h200f, Bool.false_eq_true, if_false]
        by_cases h44 : ((code == 404 || code == 403) && !c.mode_detected) = true
        · simp only [h44, if_true]
          cases hp2 : probe "/v1/models" with
          | status fcode ftext =>
            by_cases hf200 : (fcode == 200) = true
            · simp [hf200]
            · have hf200f : (fcode == 200) = false := by
                cases hb : (fcode == 200)
                · rfl
                · exact absurd hb hf200
              simp [hf200f]
          | connExc m => simp
          | timeoutExc m => simp
          | otherExc m => simp
        · have h44f : ((code == 404 || code == 403) && !c.mode_detected) = false := by
            cases hb : ((code == 404 || code == 403) && !c.mode_detected)
            · rfl
            · exact absurd hb h44
          simp [h44f]
    | connExc m => simp
    | timeoutExc m => simp
    | otherExc m => simp
  · intro code text hpc hcode hnd
    rw [hpc]
    have h200f : (code == 200) = false := by
      rcases hcode with rfl | rfl <;> rfl
    have h44t : ((code == 404 || code == 403) && !c.mode_detected) = true := by
      rcases hcode with rfl | rfl <;> simp [hnd]
    simp only [h200f, Bool.false_eq_true, if_false, h44t, if_true]
    cases hp2 : probe "/v1/models" with
    | status fcode ftext =>
      by_cases hf200 : (fcode == 200) = true
      · simp [hf200]
      · have hf200f : (fcode == 200) = false := by
          cases hb : (fcode == 200)
          · rfl
          · exact absurd hb hf200
        simp [hf200f]
    | connExc m => simp
    | timeoutExc m => simp
    | otherExc m => simp

theorem healthCheck_success_mode (c : OClient) (probe : String → ProbeOutcome)
    (h : (healthCheck c probe).healthy = true) :
    (healthCheck c probe).state.mode_detected = true ∧
    ((healthCheck c probe).probes.getLast? = some "/v1/models" →
      (healthCheck c probe).state.is_openai_compatible = true) ∧
    ((healthCheck c probe).probes.getLast? = some "/api/tags" →
      (healthCheck c probe).state.is_openai_compatible = false) := by
  by_cases htun : isNativeTunnel c.base_url = true
  · cases hp : probe "/api/tags" with
    | status code text =>
      by_cases h200 : (code == 200) = true
      · simp [healthCheck, htun, hp, h200]
      · simp [healthCheck, htun, hp, h200] at h
    | connExc m => simp [healthCheck, htun, hp] at h
    | timeoutExc m => simp [healthCheck, htun, hp] at h
    | otherExc m => simp [healthCheck, htun, hp] at h
  · have htunf : isNativeTunnel c.base_url = false := by
      cases hb : isNativeTunnel c.base_url
      · rfl
      · exact absurd hb htun
    by_cases hcond : (pyContains c.base_url "/v1/" || c.is_openai_compatible) = true
    · cases hp : probe "/v1/models" with
      | status code text =>
        by_cases h200 : (code == 200) = true
        · simp [healthCheck, htunf, hcond, hp, h200]
        · by_cases h44 : ((code == 404 || code == 403) && !c.mode_detected) = true
          · cases hp2 : probe "/api/tags" with
            | status fcode ftext =>
              by_cases hf200 : (fcode == 200) = true
              · simp [healthCheck, htunf, hcond, hp, h200, h44, hp2, hf200]
              · simp [healthCheck, htunf, hcond, hp, h200, h44, hp2, hf200] at h
            | connExc m => simp [healthCheck, htunf, hcond, hp, h200, h44, hp2] at h
            | timeoutExc m => simp [healthCheck, htunf, hcond, hp, h200, h44, hp2] at h
            | otherExc m => simp [healthCheck, htunf, hcond, hp, h200, h44, hp2] at h
          · simp [healthCheck, htunf, hcond, hp, h200, h44] at h
      | connExc m => simp [healthCheck, htunf, hcond, hp] at h
      | timeoutExc m => simp [healthCheck, htunf, hcond, hp] at h
      | otherExc m => simp [healthCheck, htunf, hcond, hp] at h
    · have hcondf : (pyContains c.base_url "/v1/" || c.is_openai_compatible) = false := by
        cases hb : (pyContains c.base_url "/v1/" || c.is_openai_compatible)
        · rfl
        · exact absurd hb hcond
      cases hp : probe "/api/tags" with
      | status code text =>
        by_cases h200 : (code == 200) = true
        · simp [healthCheck, htunf, hcondf, hp, h200]
        · by_cases h44 : ((code == 404 || code == 403) && !c.mode_detected) = true
          · cases hp2 : probe "/v1/models" with
            | status fcode ftext =>
              by_cases hf200 : (fcode == 200) = true
              · simp [healthCheck, htunf, hcondf, hp, h200, h44, hp2, hf200]
              · simp [healthCheck, htunf, hcondf, hp, h200, h44, hp2, hf200] at h
            | connExc m => simp [healthCheck, htunf, hcondf, hp, h200, h44, hp2] at h
            | timeoutExc m => simp [healthCheck, htunf, hcondf, hp, h200, h44, hp2] at h
            | otherExc m => simp [healthCheck, htunf, hcondf, hp, h200, h44, hp2] at h
          · simp [healthCheck, htunf, hcondf, hp, h200, h44] at h
      | connExc m => simp [healthCheck, htunf, hcondf, hp] at h
      | timeoutExc m => simp [healthCheck, htunf, hcondf, hp] at h
      | otherExc m => simp [healthCheck, htunf, hcondf, hp] at h

theorem healthCheck_stable (c : OClient) (probe : String → ProbeOutcome)
    (h : (healthCheck c probe).healthy = true) :
    (healthCheck (healthCheck c probe).state probe).state.is_openai_compatible =
      (healthCheck c probe).state.is_openai_compatible := by
  by_cases htun : isNativeTunnel c.base_url = true
  · cases hp : probe "/api/tags" with
    | status code text =>
      by_cases h200 : (code == 200) = true
      · simp [healthCheck, htun, hp, h200]
      · simp [healthCheck, htun, hp, h200] at h
    | connExc m => simp [healthCheck, htun, hp] at h
    | timeoutExc m => simp [healthCheck, htun, hp] at h
    | otherExc m => simp [healthCheck, htun, hp] at h
  · have htunf : isNativeTunnel c.base_url = false := by
      cases hb : isNativeTunnel c.base_url
      · rfl
      · exact absurd hb htun
    by_cases hcond : (pyContains c.base_url "/v1/" || c.is_openai_compatible) = true
    · cases hp : probe "/v1/models" with
      | status code text =>
        by_cases h200 : (code == 200) = true
        · simp [healthCheck, htunf, hcond, hp, h200]
        · by_cases h44 : ((code == 404 || code == 403) && !c.mode_detected) = true
          · cases hp2 : probe "/api/tags" with
            | status fcode ftext =>
              by_cases hf200 : (fcode == 200) = true
              · by_cases hv1 : pyContains c.base_url "/v1/" = true
                · simp [healthCheck, htunf, hcond, hp, h200, h44, hp2, hf200, hv1]
                · have hv1f : pyContains c.base_url "/v1/" = false := by
                    cases hb : pyContains c.base_url "/v1/"
                    · rfl
                    · exact absurd hb hv1
                  have hoc : c.is_openai_compatible = true := by
                    rw [hv1f] at hcond
                    simpa using hcond
                  simp [healthCheck, htunf, hp, h200, h44, hp2, hf200, hv1f, hoc]
              · simp [healthCheck, htunf, hcond, hp, h200, h44, hp2, hf200] at h
            | connExc m => simp [healthCheck, htunf, hcond, hp, h200, h44, hp2] at h
            | timeoutExc m => simp [healthCheck, htunf, hcond, hp, h200, h44, hp2] at h
            | otherExc m => simp [healthCheck, htunf, hcond, hp, h200, h44, hp2] at h
          · simp [healthCheck, htunf, hcond, hp, h200, h44] at h
      | connExc m => simp [healthCheck, htunf, hcond, hp] at h
      | timeoutExc m => simp [healthCheck, htunf, hcond, hp] at h
      | otherExc m => simp [healthCheck, htunf, hcond, hp] at h
    · have hcondf : (pyContains c.base_url "/v1/" || c.is_openai_compatible) = false := by
        cases hb : (pyContains c.base_url "/v1/" || c.is_openai_compatible)
        · rfl
        · exact absurd hb hcond
      have hv1f : pyContains c.base_url "/v1/" = false := by
        cases hb : pyContains c.base_url "/v1/"
        · rfl
        · rw [hb] at hcondf
          simp at hcondf
      have hocf : c.is_openai_compatible = false := by
        rw [hv1f] at hcondf
        simpa using hcondf
      cases hp : probe "/api/tags" with
      | status code text =>
        by_cases h200 : (code == 200) = true
        · simp [healthCheck, htunf, hp, h200, hv1f, hocf]
        · by_cases h44 : ((code == 404 || code == 403) && !c.mode_detected) = true
          · cases hp2 : probe "/v1/models" with
            | status fcode ftext =>
              by_cases hf200 : (fcode == 200) = true
              · simp [healthCheck, htunf, hp, h200, h44, hp2, hf200, hv1f, hocf]
              · simp [healthCheck, htunf, hp, h200, h44, hp2, hf200, hv1f, hocf] at h
            | connExc m => simp [healthCheck, htunf, hp, h200, h44, hp2, hv1f, hocf] at h
            | timeoutExc m => simp [healthCheck, htunf, hp, h200, h44, hp2, hv1f, hocf] at h
            | otherExc m => simp [healthCheck, htunf, hp, h200, h44, hp2, hv1f, hocf] at h
          · simp [healthCheck, htunf, hp, h200, h44, hv1f, hocf] at h
      | connExc m => simp [healthCheck, htunf, hp, hv1f, hocf] at h
      | timeoutExc m => simp [healthCheck, htunf, hp, hv1f, hocf] at h
      | otherExc m => simp [healthCheck, htunf, hp, hv1f, hocf] at h

/-- Claim C3 (amended): a base location matching the native-tunnel pattern is
pinned to the native dialect at construction (no probe involved), and its
health check only ever contacts the native list endpoint.  For other
locations the first probe's endpoint is decided by the URL pattern: a
location containing `/v1/` (or already flagged OpenAI-compatible) probes the
OpenAI-compatible list endpoint first and falls back to the native one on a
404/403 when the mode is undetected; every other location probes the native
endpoint first with the OpenAI-compatible endpoint as the 404/403 fallback.
Whichever probe returns 200 fixes the dialect from that endpoint and marks
the mode detected; against the same (deterministic) daemon, a further health
check never changes the detected dialect.  (The original claim said every
non-tunnel location probes the OpenAI-compatible endpoint first; the
counterexample shows a plain localhost base probes the native endpoint
first.) -/
theorem claim_C3_amended :
    (∀ (u : String) (probe : String → ProbeOutcome), isNativeTunnel u = true →
      (initClient u).is_openai_compatible = false ∧
      (healthCheck (initClient u) probe).probes = ["/api/tags"] ∧
      (healthCheck (initClient u) probe).state.is_openai_compatible = false) ∧
    (∀ (c : OClient) (probe : String → ProbeOutcome),
      isNativeTunnel c.base_url = false →
      (pyContains c.base_url "/v1/" = true ∨ c.is_openai_compatible = true) →
      (healthCheck c probe).probes.head? = some "/v1/models" ∧
      (∀ code text, probe "/v1/models" = .status code text → (code = 404 ∨ code = 403) →
        c.mode_detected = false →
        (healthCheck c probe).probes = ["/v1/models", "/api/tags"])) ∧
    (∀ (c : OClient) (probe : String → ProbeOutcome),
      isNativeTunnel c.base_url = false →
      pyContains c.base_url "/v1/" = false → c.is_openai_compatible = false →
      (healthCheck c probe).probes.head? = some "/api/tags" ∧
      (∀ code text, probe "/api/tags" = .status code text → (code = 404 ∨ code = 403) →
        c.mode_detected = false →
        (healthCheck c probe).probes = ["/api/tags", "/v1/models"])) ∧
    (∀ (c : OClient) (probe : String → ProbeOutcome),
      (healthCheck c probe).healthy = true →
      (healthCheck c probe).state.mode_detected = true ∧
      ((healthCheck c probe).probes.getLast? = some "/v1/models" →
        (healthCheck c probe).state.is_openai_compatible = true) ∧
      ((healthCheck c probe).probes.getLast? = some "/api/tags" →
        (healthCheck c probe).state.is_openai_compatible = false)) ∧
    (∀ (c : OClient) (probe : String → ProbeOutcome),
      (healthCheck c probe).healthy = true →
      (healthCheck (healthCheck c probe).state probe).state.is_openai_compatible =
        (healthCheck c probe).state.is_openai_compatible) :=
  ⟨fun u probe ht =>
    ⟨by simp [initClient, ht],
     (healthCheck_tunnel (initClient u) probe ht).1,
     (healthCheck_tunnel (initClient u) probe ht).2⟩,
   healthCheck_openai_first, healthCheck_native_first,
   healthCheck_success_mode, healthCheck_stable⟩

/-- Claim C3 counterexample: `http://localhost:11434` matches no tunnel
pattern, yet its first health probe targets the native `/api/tags` endpoint,
not the OpenAI-compatible `/v1/models` — refuting the claim that every
non-tunnel base location is probed OpenAI-first. -/
theorem claim_C3_counterexample :
    isNativeTunnel "http://localhost:11434" = false ∧
    (healthCheck (initClient "http://localhost:11434") (fun _ => .status 200 "")).probes =
      ["/api/tags"] ∧
    ("/api/tags" : String) ≠ "/v1/models" := by
  exact ⟨by decide, rfl, by decide⟩

/-- Witness for the amended C3 at the localhost client. -/
theorem claim_C3_amended_witness :
    (healthCheck (initClient "http://localhost:11434") (fun _ => .status 200 "")).probes.head? =
      some "/api/tags" :=
  (claim_C3_amended.2.2.1 (initClient "http://localhost:11434") (fun _ => .status 200 "")
    (by decide) (by decide) (by decide)).1

/-! ## Claim C7: fence stripping and salvage -/

theorem beq_false_of_not_mem {c : Char} {l : List Char} (h : l.contains c = false) :
    ∀ x ∈ l, (c == x) = false := by
  intro x hx
  cases hb : (c == x)
  · rfl
  · have hcx : c = x := eq_of_beq hb
    subst hcx
    rw [List.contains_eq_any_beq, List.any_eq_false] at h
    have hcc := h c hx
    simp at hcc

theorem isPrefixOf_append_self (l r : List Char) : l.isPrefixOf (l ++ r) = true :=
  List.isPrefixOf_iff_prefix.mpr (List.prefix_append l r)

theorem containsSub_prefix (pat r : List Char) : containsSub (pat ++ r) pat = true := by
  unfold containsSub
  apply List.any_eq_true.mpr
  exact ⟨0, by simp, by simpa using isPrefixOf_append_self pat r⟩

theorem containsSub_eq_false_of_head (c : Char) (t l : List Char)
    (h : l.contains c = false) : containsSub l (c :: t) = false := by
  unfold containsSub
  rw [List.any_eq_false]
  intro i _
  cases hd : l.drop i with
  | nil => simp [List.isPrefixOf]
  | cons x xs =>
    have hx : x ∈ l := List.mem_of_mem_drop (hd ▸ List.mem_cons_self x xs)
    have hbx : (c == x) = false := beq_false_of_not_mem h x hx
    simp [List.isPrefixOf, hbx]

theorem splitGo_no_occ (sep : List Char) (l : List Char) :
    ∀ (fuel : Nat) (acc : List Char),
    (∀ i, sep.isPrefixOf (l.drop i) = false) →
    splitGo sep fuel l acc = [acc.reverse ++ l] := by
  induction l with
  | nil =>
    intro fuel acc _
    cases fuel <;> simp [splitGo]
  | cons c t ih =>
    intro fuel acc h
    cases fuel with
    | zero => rfl
    | succ f =>
      have h0 : sep.isPrefixOf (c :: t) = false := by simpa using h 0
      rw [splitGo, if_neg (by simp [h0])]
      rw [ih f (c :: acc) (fun i => by simpa using h (i + 1))]
      simp

theorem splitGo_head (s0 : Char) (st : List Char) (fuel : Nat) (rest acc : List Char) :
    splitGo (s0 :: st) (fuel + 1) ((s0 :: st) ++ rest) acc =
      acc.reverse :: splitGo (s0 :: st) fuel rest [] := by
  show splitGo (s0 :: st) (fuel + 1) (s0 :: (st ++ rest)) acc = _
  rw [splitGo, if_pos (by simpa using isPrefixOf_append_self (s0 :: st) rest)]
  have hdrop : (s0 :: (st ++ rest)).drop (s0 :: st).length = rest := by
    show ((s0 :: st) ++ rest).drop (s0 :: st).length = rest
    exact List.drop_left (s0 :: st) rest
  rw [hdrop]

theorem splitGo_walk (s0 : Char) (st : List Char) (l : List Char) :
    ∀ (z acc : List Char) (fuel : Nat),
    (∀ c ∈ l, (s0 == c) = false) →
    splitGo (s0 :: st) (l.length + fuel) (l ++ z) acc =
      splitGo (s0 :: st) fuel z (l.reverse ++ acc) := by
  induction l with
  | nil =>
    intro z acc fuel _
    simp
  | cons c t ih =>
    intro z acc fuel hch
    have hlen : (c :: t).length + fuel = (t.length + fuel) + 1 := by
      simp [List.length_cons]
      omega
    rw [hlen]
    show splitGo (s0 :: st) ((t.length + fuel) + 1) (c :: (t ++ z)) acc = _
    have hpf : (s0 :: st).isPrefixOf (c :: (t ++ z)) = false := by
      simp [List.isPrefixOf, hch c (List.mem_cons_self c t)]
    rw [splitGo, if_neg (by simp [hpf])]
    rw [ih z (c :: acc) fuel (fun x hx => hch x (List.mem_cons_of_mem c hx))]
    simp

theorem noOcc_append (pt z : List Char)
    (hz : ∀ i, (backtickChar :: pt).isPrefixOf (z.drop i) = false) :
    ∀ l : List Char, (∀ c ∈ l, (backtickChar == c) = false) →
    ∀ i, (backtickChar :: pt).isPrefixOf ((l ++ z).drop i) = false := by
  intro l
  induction l with
  | nil =>
    intro _ i
    simpa using hz i
  | cons c t ih =>
    intro hch i
    cases i with
    | zero =>
      show (backtickChar :: pt).isPrefixOf (c :: (t ++ z)) = false
      simp [List.isPrefixOf, hch c (List.mem_cons_self c t)]
    | succ n =>
      show (backtickChar :: pt).isPrefixOf ((t ++ z).drop n) = false
      exact ih (fun x hx => hch x (List.mem_cons_of_mem c hx)) n

theorem noOcc_json_suffix :
    ∀ i, (backtickChar :: "``json".data).isPrefixOf (("\n```".data).drop i) = false := by
  intro i
  rcases i with _ | _ | _ | _ | n
  · decide
  · decide
  · decide
  · decide
  · have hd : ("\n```".data).drop (n + 4) = [] :=
      List.drop_eq_nil_of_le (by rw [show ("\n```".data).length = 4 from rfl]; omega)
    rw [hd]
    decide

theorem splitGo_head_ne (sep : List Char) (hsep : sep ≠ []) (fuel : Nat)
    (rest acc : List Char) :
    splitGo sep (fuel + 1) (sep ++ rest) acc = acc.reverse :: splitGo sep fuel rest [] := by
  cases sep with
  | nil => exact absurd rfl hsep
  | cons s0 st => exact splitGo_head s0 st fuel rest acc

theorem splitGo_self (sep : List Char) (hsep : sep ≠ []) (fuel : Nat) (acc : List Char) :
    splitGo sep (fuel + 1) sep acc = [acc.reverse, []] := by
  have h := splitGo_head_ne sep hsep fuel [] acc
  rw [List.append_nil] at h
  rw [h]
  cases fuel <;> rfl

theorem dropWhile_ws_append_nl (l : List Char) :
    List.dropWhile Char.isWhitespace (l ++ ['\n']) =
      if (List.dropWhile Char.isWhitespace l).isEmpty then []
      else List.dropWhile Char.isWhitespace l ++ ['\n'] := by
  induction l with
  | nil => simp [List.dropWhile]
  | cons c t ih =>
    by_cases hc : Char.isWhitespace c = true
    · simp [List.dropWhile, hc, ih]
    · simp [List.dropWhile, hc]

theorem stripChars_wrap (l : List Char) :
    stripChars ('\n' :: (l ++ ['\n'])) = stripChars l := by
  unfold stripChars
  have h0 : List.dropWhile Char.isWhitespace ('\n' :: (l ++ ['\n'])) =
      List.dropWhile Char.isWhitespace (l ++ ['\n']) := by
    simp [List.dropWhile]
  rw [h0, dropWhile_ws_append_nl]
  by_cases hl : (List.dropWhile Char.isWhitespace l).isEmpty = true
  · rw [List.isEmpty_iff] at hl
    simp [hl]
  · have hlf : (List.dropWhile Char.isWhitespace l).isEmpty = false := by
      cases hb : (List.dropWhile Char.isWhitespace l).isEmpty
      · rfl
      · exact absurd hb hl
    rw [hlf]
    simp only [Bool.false_eq_true, if_false]
    rw [List.reverse_append]
    simp [List.dropWhile]

theorem stripChars_fix_of_pyStrip (s : String) (h : pyStrip s = s) :
    stripChars s.data = s.data :=
  congrArg String.data h

theorem stripFences_id (s : String) (h1 : s.data.contains backtickChar = false) :
    stripFences s = s := by
  have hc1 : pyContains s "```json" = false := by
    unfold pyContains
    rw [show "```json".data = backtickChar :: "``json".data from rfl]
    exact containsSub_eq_false_of_head _ _ _ h1
  have hc2 : pyContains s "```" = false := by
    unfold pyContains
    rw [show "```".data = backtickChar :: "``".data from rfl]
    exact containsSub_eq_false_of_head _ _ _ h1
  simp [stripFences, hc1, hc2]

theorem stripFences_fenced (s : String) (h1 : s.data.contains backtickChar = false)
    (h2 : pyStrip s = s) :
    stripFences ("```json\n" ++ s ++ "\n```") = s := by
  have hch : ∀ c ∈ s.data, (backtickChar == c) = false := beq_false_of_not_mem h1
  have hdata : ("```json\n" ++ s ++ "\n```").data =
      "```json".data ++ ('\n' :: (s.data ++ "\n```".data)) := by
    rw [String.data_append, String.data_append]
    rw [show "```json\n".data = "```json".data ++ ['\n'] from rfl]
    simp
  have hrest_noocc : ∀ i, ("```json".data).isPrefixOf
      (('\n' :: (s.data ++ "\n```".data)).drop i) = false := by
    have heq : '\n' :: (s.data ++ "\n```".data) = ('\n' :: s.data) ++ "\n```".data := rfl
    rw [show "```json".data = backtickChar :: "``json".data from rfl, heq]
    apply noOcc_append "``json".data "\n```".data noOcc_json_suffix
    intro c hc
    rcases List.mem_cons.mp hc with rfl | hmem
    · decide
    · exact hch c hmem
  have hcontains : pyContains ("```json\n" ++ s ++ "\n```") "```json" = true := by
    unfold pyContains
    rw [hdata]
    exact containsSub_prefix _ _
  have hsplit1 : pySplit ("```json\n" ++ s ++ "\n```") "```json" =
      ["", String.mk ('\n' :: (s.data ++ "\n```".data))] := by
    unfold pySplit
    rw [hdata]
    have hlen : ("```json".data ++ ('\n' :: (s.data ++ "\n```".data))).length =
        (('\n' :: (s.data ++ "\n```".data)).length + 6) + 1 := by
      rw [List.length_append, show ("```json".data).length = 7 from rfl]
      omega
    rw [hlen, splitGo_head_ne "```json".data (by decide) _ _ _]
    rw [splitGo_no_occ "```json".data _ _ _ hrest_noocc]
    simp
  have hsplit2 : pySplit (String.mk ('\n' :: (s.data ++ "\n```".data))) "```" =
      [String.mk ('\n' :: (s.data ++ ['\n'])), ""] := by
    unfold pySplit
    have heq : (String.mk ('\n' :: (s.data ++ "\n```".data))).data =
        ('\n' :: (s.data ++ ['\n'])) ++ "```".data := by
      show '\n' :: (s.data ++ "\n```".data) = ('\n' :: (s.data ++ ['\n'])) ++ "```".data
      rw [show "\n```".data = ['\n'] ++ "```".data from rfl]
      simp
    rw [heq]
    have hlen : ((('\n' :: (s.data ++ ['\n'])) ++ "```".data)).length =
        ('\n' :: (s.data ++ ['\n'])).length + 3 := by
      rw [List.length_append, show ("```".data).length = 3 from rfl]
    rw [hlen]
    rw [show "```".data = backtickChar :: "``".data from rfl]
    rw [splitGo_walk backtickChar "``".data ('\n' :: (s.data ++ ['\n']))
      (backtickChar :: "``".data) [] 3 ?hch2]
    case hch2 =>
      intro c hc
      rcases List.mem_cons.mp hc with rfl | hmem
      · decide
      · rcases List.mem_append.mp hmem with hmem2 | hmem3
        · exact hch c hmem2
        · rcases List.mem_singleton.mp hmem3 with rfl
          decide
    rw [show (3 : Nat) = 2 + 1 from rfl]
    rw [splitGo_self (backtickChar :: "``".data) (by decide) 2]
    simp
  have hgetD1 : (pySplit ("```json\n" ++ s ++ "\n```") "```json").getD 1 "" =
      String.mk ('\n' :: (s.data ++ "\n```".data)) := by
    rw [hsplit1]
    rfl
  have hgetD0 : (pySplit (String.mk ('\n' :: (s.data ++ "\n```".data))) "```").getD 0 "" =
      String.mk ('\n' :: (s.data ++ ['\n'])) := by
    rw [hsplit2]
    rfl
  calc stripFences ("```json\n" ++ s ++ "\n```")
      = pyStrip ((pySplit ((pySplit ("```json\n" ++ s ++ "\n```") "```json").getD 1 "")
          "```").getD 0 "") := by
        unfold stripFences
        simp [hcontains]
    _ = pyStrip (String.mk ('\n' :: (s.data ++ ['\n']))) := by rw [hgetD1, hgetD0]
    _ = s := by
        show String.mk (stripChars ('\n' :: (s.data ++ ['\n']))) = s
        rw [stripChars_wrap, stripChars_fix_of_pyStrip s h2]

/-- C7: generation-phase parsing.  Markdown code fences around the model's
JSON output are stripped before parsing, so a ```json-fenced payload
extracts exactly as its unfenced equivalent; when direct parsing fails, the
substring from the first opening brace to the last closing brace is sliced
out and re-parsed (salvaging prose-wrapped JSON); when that salvage is also
impossible the extraction reports the descriptive malformed-output error,
the job is driven to `failed` with that error persisted, and the generation
daemon call is not retried: the run's outcome is independent of every
oracle answer beyond the first generation attempt and the generation phase
is entered exactly once. -/
theorem claim_C7_generation_parsing (s : String)
    (h1 : s.data.contains backtickChar = false) (h2 : pyStrip s = s) :
    extractWorkflow ("```json\n" ++ s ++ "\n```") = extractWorkflow s ∧
    extractWorkflow "Here is the workflow: \x7b\"nodes\": [], \"edges\": []\x7d done" =
      .ok (.obj [("nodes", .arr []), ("edges", .arr [])]) ∧
    extractWorkflow "no json here" =
      .error ("Could not extract valid JSON from response: " ++ jsonDecodeErrMsg) ∧
    (∀ o : Nat → StreamAttempt,
      (generateWorkflowRun freshJob (fun _ => .ok (msgBody "ignored"))
        (fun n => if n = 0 then .ok "no json here" else o n)).1.status = "failed" ∧
      (generateWorkflowRun freshJob (fun _ => .ok (msgBody "ignored"))
        (fun n => if n = 0 then .ok "no json here" else o n)).1.error_message =
        some ("Could not extract valid JSON from response: " ++ jsonDecodeErrMsg) ∧
      (generateWorkflowRun freshJob (fun _ => .ok (msgBody "ignored"))
        (fun n => if n = 0 then .ok "no json here" else o n)).2 = 1) := by
  refine ⟨?_, rfl, rfl, fun o => ⟨rfl, rfl, rfl⟩⟩
  unfold extractWorkflow
  simp only [stripFences_fenced s h1 h2, stripFences_id s h1]

/-- Witness: the fenced/unfenced equivalence instantiated at a concrete
backtick-free, whitespace-trimmed JSON payload. -/
theorem claim_C7_generation_parsing_witness :
    ("\x7b\"a\": 1\x7d" : String).data.contains backtickChar = false ∧
    pyStrip "\x7b\"a\": 1\x7d" = "\x7b\"a\": 1\x7d" ∧
    extractWorkflow ("```json\n" ++ "\x7b\"a\": 1\x7d" ++ "\n```") =
      extractWorkflow "\x7b\"a\": 1\x7d" :=
  ⟨by decide, by decide,
    (claim_C7_generation_parsing "\x7b\"a\": 1\x7d" (by decide) (by decide)).1⟩
